import Mathlib

/-!
# Verification of the `toolbox` PDF batch-compression pipeline

Shallow embedding of the two source files

* `src/tools_dev/pdf/web/app.py`  (the Flask web variant: `format_date_for_pdf`,
  `process_single_pdf`, the `/compress` route), and
* `src/tools_cli/pdf/compress_pdf.py` (the CLI variant: `format_date_for_pdf`,
  `add_metadata`, `compress_pdf`).

Python effects are modelled explicitly:

* the working directory is an association list from path to file content
  (`FS`); file bytes are modelled as `String`;
* log/print output is a list of strings (`Log`);
* a Python computation is a state-passing function that either returns a
  value or an uncaught exception (`PyM`); exceptions do **not** roll back
  state, matching Python;
* a Python `dict` is an insertion-ordered association list with in-place
  overwrite on assignment (`dictSet` / `dictGet`);
* external collaborators (Ghostscript, `pypdf`, `FileStorage.save`) are
  oracles: an environment record decides whether each call succeeds and what
  data it yields.  The serialized bytes produced by `PdfWriter.write` are
  modelled by the injective rendering `writerRender` (an opaque placeholder
  for real PDF bytes); `base64.b64encode` is an injective presentation
  transform and responses carry the raw payload structurally.
-/

set_option autoImplicit false

namespace Toolbox

/-- Python exception values, distinguished only as far as the sources'
`except` clauses distinguish them. -/
inductive PyErr where
  /-- Python `NameError`: an undefined global was referenced. -/
  | nameError (name : String)
  /-- Python `subprocess.CalledProcessError` (raised by `subprocess.run(check=True)`). -/
  | calledProcessError (msg : String)
  /-- any other exception, carrying its message. -/
  | exception (msg : String)
  deriving Repr, DecidableEq

/-- The message interpolated into f-strings by the handlers (`str(e)`). -/
def PyErr.msg : PyErr → String
  | .nameError n => "name '" ++ n ++ "' is not defined"
  | .calledProcessError m => m
  | .exception m => m

/-- Working directory: association list from path to file content. -/
abbrev FS := List (String × String)

/-- Log / stdout lines. -/
abbrev Log := List String

/-- Mutable program state: filesystem plus emitted log lines. -/
structure PyState where
  fs : FS
  log : Log
  deriving Repr, DecidableEq

/-- A Python computation: state in, `Except` result and state out.
State is retained on an exception (Python does not roll back effects). -/
def PyM (α : Type) : Type := PyState → Except PyErr α × PyState

/-- Return a value without touching the state. -/
def pyPure {α : Type} (a : α) : PyM α := fun s => (.ok a, s)

/-- Sequencing: run `x`; on success feed the value to `f`, on an exception
propagate it together with the state reached so far. -/
def pyBind {α β : Type} (x : PyM α) (f : α → PyM β) : PyM β := fun s =>
  match x s with
  | (.ok a, s') => f a s'
  | (.error e, s') => (.error e, s')

/-- Raise an exception. -/
def pyRaise {α : Type} (e : PyErr) : PyM α := fun s => (.error e, s)

/-- Python `try: body except Exception as e: handler e` — catches every exception. -/
def pyTry {α : Type} (body : PyM α) (handler : PyErr → PyM α) : PyM α := fun s =>
  match body s with
  | (.ok a, s') => (.ok a, s')
  | (.error e, s') => handler e s'

/-- Python `try: body except E as e: handler e` for a selective clause: exceptions
not satisfying `sel` keep propagating. -/
def pyTryOn {α : Type} (sel : PyErr → Bool) (body : PyM α) (handler : PyErr → PyM α) :
    PyM α := fun s =>
  match body s with
  | (.ok a, s') => (.ok a, s')
  | (.error e, s') => if sel e then handler e s' else (.error e, s')

/-- Append a log line (`logger.info` / `logger.warning` / `logger.error` /
`print`: the sinks are not distinguished). -/
def pyLog (line : String) : PyM Unit := fun s => (.ok (), ⟨s.fs, s.log ++ [line]⟩)

/-- Remove every binding of a path (paths are unique keys, see `fsSet`). -/
def fsErase (p : String) (fs : FS) : FS := fs.filter (fun kv => kv.1 ≠ p)

/-- Create or overwrite a file. -/
def fsSet (p content : String) : PyM Unit := fun s =>
  (.ok (), ⟨(p, content) :: fsErase p s.fs, s.log⟩)

/-- Model of `os.path.exists`. -/
def fsExistsB (p : String) (fs : FS) : Bool := fs.any (fun kv => kv.1 = p)

/-- Content of a path, if present. -/
def fsGet (p : String) (fs : FS) : Option String :=
  (fs.find? (fun kv => kv.1 = p)).map Prod.snd

/-- Model of `open(p,"rb").read()` and the read under `PdfReader(p)`: raises
`FileNotFoundError` when the path is absent. -/
def fsRead (p : String) : PyM String := fun s =>
  match fsGet p s.fs with
  | some c => (.ok c, s)
  | none => (.error (.exception ("FileNotFoundError: " ++ p)), s)

/-- Model of `os.remove`: raises when the path is absent. -/
def fsRemove (p : String) : PyM Unit := fun s =>
  if fsExistsB p s.fs then (.ok (), ⟨fsErase p s.fs, s.log⟩)
  else (.error (.exception ("FileNotFoundError: " ++ p)), s)

/-- Guarded removal `if os.path.exists(p): os.remove(p)` — the idiom used by
both sources. -/
def fsRemoveIfExists (p : String) : PyM Unit := fun s =>
  (.ok (), ⟨fsErase p s.fs, s.log⟩)

/-- Model of `shutil.move(src, dst)`: read `src`, delete it, overwrite `dst`. -/
def fsMove (src dst : String) : PyM Unit :=
  pyBind (fsRead src) (fun c => fun s =>
    (.ok (), ⟨(dst, c) :: fsErase dst (fsErase src s.fs), s.log⟩))

/-! ## Python `dict` as an insertion-ordered association list -/

/-- Assignment `d[k] = v`: overwrite in place when the key exists, else append. -/
def dictSet : List (String × String) → String → String → List (String × String)
  | [], k, v => [(k, v)]
  | (k', v') :: rest, k, v =>
    if k' = k then (k, v) :: rest else (k', v') :: dictSet rest k v

/-- Lookup `d.get(k)` / `d[k]`. -/
def dictGet : List (String × String) → String → Option String
  | [], _ => none
  | (k', v') :: rest, k => if k' = k then some v' else dictGet rest k

/-- The copy loop `new = {}; for k, v in src.items(): new[k] = v` both
sources use to duplicate `reader.metadata`. -/
def dictCopy (src : List (String × String)) : List (String × String) :=
  src.foldl (fun d kv => dictSet d kv.1 kv.2) []

/-- Python truthiness of an optional string (`None` and `""` are falsy). -/
def truthy : Option String → Bool
  | none => false
  | some s => !s.isEmpty

/-- Value of `o` if truthy else `""` (used only after a `truthy` check has passed). -/
def strOf (o : Option String) : String := o.getD ""

/-! ## `os.path.splitext` (posix variant, as used on the upload filename)

Faithful to CPython `genericpath._splitext`: split at the last dot, unless
every character between the last path separator and that dot is itself a
dot (leading dots of a basename do not start an extension). -/

/-- Index of the last occurrence of `c`, if any. -/
def lastIdxOf (c : Char) (cs : List Char) : Option Nat :=
  (List.findIdx? (fun x => x = c) cs.reverse).map (fun i => cs.length - 1 - i)

/-- Model of `os.path.splitext(p)[0]` — the filename stem. -/
def splitextStem (p : String) : String :=
  let cs := p.data
  let sepIdx : Int := match lastIdxOf '/' cs with | some i => (i : Int) | none => -1
  let dotIdx : Int := match lastIdxOf '.' cs with | some i => (i : Int) | none => -1
  if sepIdx < dotIdx then
    let start := (sepIdx + 1).toNat
    if ((cs.drop start).take (dotIdx.toNat - start)).any (fun c => c ≠ '.') then
      ⟨cs.take dotIdx.toNat⟩
    else p
  else p

/-- Model of `os.path.splitext(p)[1]` — the extension (used by the CLI to build
`<base>_compressed<ext>`). -/
def splitextExt (p : String) : String :=
  let cs := p.data
  let sepIdx : Int := match lastIdxOf '/' cs with | some i => (i : Int) | none => -1
  let dotIdx : Int := match lastIdxOf '.' cs with | some i => (i : Int) | none => -1
  if sepIdx < dotIdx then
    let start := (sepIdx + 1).toNat
    if ((cs.drop start).take (dotIdx.toNat - start)).any (fun c => c ≠ '.') then
      ⟨cs.drop dotIdx.toNat⟩
    else ""
  else ""

/-! ## `datetime.strptime` for the three fixed formats of the sources

CPython's `_strptime` compiles each directive to a regex —
`%Y ↦ \d\d\d\d`, `%m ↦ 1[0-2]|0[1-9]|[1-9]`, `%d ↦ 3[01]|[12]\d|0[1-9]|[1-9]`,
`%H ↦ 2[0-3]|[0-1]\d|\d`, `%M ↦ [0-5]\d|\d`, `%S ↦ 6[0-1]|[0-5]\d|\d` —
anchored at the start, and rejects the input unless the whole string is
consumed.  In the three formats used here every numeric group is followed by
a non-digit separator (or the end of input), so each group must consume the
entire maximal digit run at its position; the parsers below read that run and
check its length/value against the directive's regex.  `datetime.strptime`
then builds a `datetime`, which re-validates the calendar (`MINYEAR = 1`,
day against month length, seconds ≤ 59), raising `ValueError` otherwise. -/

/-- Numeric value of a digit character. -/
def digitVal (c : Char) : Nat := c.toNat - 48

/-- Value of a digit run. -/
def runVal (cs : List Char) : Nat := cs.foldl (fun a c => a * 10 + digitVal c) 0

/-- Split off the maximal leading digit run. -/
def splitRun (cs : List Char) : List Char × List Char :=
  (cs.takeWhile Char.isDigit, cs.dropWhile Char.isDigit)

/-- The `%m` regex `1[0-2]|0[1-9]|[1-9]` on a maximal digit run. -/
def monthRunOk (r : List Char) : Bool :=
  (r.length = 1 || r.length = 2) && 1 ≤ runVal r && runVal r ≤ 12

/-- The `%d` regex `3[01]|[12]\d|0[1-9]|[1-9]` on a maximal digit run. -/
def dayRunOk (r : List Char) : Bool :=
  (r.length = 1 || r.length = 2) && 1 ≤ runVal r && runVal r ≤ 31

/-- The `%H` regex `2[0-3]|[0-1]\d|\d` on a maximal digit run. -/
def hourRunOk (r : List Char) : Bool :=
  (r.length = 1 || r.length = 2) && runVal r ≤ 23

/-- The `%M` regex `[0-5]\d|\d` on a maximal digit run. -/
def minuteRunOk (r : List Char) : Bool :=
  (r.length = 1 || r.length = 2) && runVal r ≤ 59

/-- The `%S` regex `6[0-1]|[0-5]\d|\d` on a maximal digit run (the leap-second
values 60 and 61 pass the regex and are rejected by `datetime` below). -/
def secondRunOk (r : List Char) : Bool :=
  (r.length = 1 || r.length = 2) && runVal r ≤ 61

/-- Gregorian leap year (as `calendar.isleap` / `datetime`). -/
def isLeap (y : Nat) : Bool := (y % 4 = 0 && y % 100 ≠ 0) || y % 400 = 0

/-- Days in a month. -/
def daysInMonth (y m : Nat) : Nat :=
  if m = 2 then (if isLeap y then 29 else 28)
  else if m = 4 ∨ m = 6 ∨ m = 9 ∨ m = 11 then 30
  else 31

/-- The validation performed by the `datetime(...)` constructor. -/
def dtValid (y m d h mi sec : Nat) : Bool :=
  1 ≤ y && y ≤ 9999 && 1 ≤ m && m ≤ 12 && 1 ≤ d && d ≤ daysInMonth y m &&
    h ≤ 23 && mi ≤ 59 && sec ≤ 59

/-- Parse the leading `%Y-%m-%d` of a character list; returns the fields and
the unconsumed remainder. -/
def parseYmd (cs : List Char) : Option (Nat × Nat × Nat × List Char) :=
  let (yr, r1) := splitRun cs
  if yr.length = 4 then
    match r1 with
    | '-' :: r2 =>
      let (mr, r3) := splitRun r2
      if monthRunOk mr then
        match r3 with
        | '-' :: r4 =>
          let (dr, r5) := splitRun r4
          if dayRunOk dr then some (runVal yr, runVal mr, runVal dr, r5) else none
        | _ => none
      else none
    | _ => none
  else none

/-- Parse `%H:%M` or `%H:%M:%S` (per `withSec`) to the end of input. -/
def parseTime (withSec : Bool) (cs : List Char) : Option (Nat × Nat × Nat) :=
  let (hr, r1) := splitRun cs
  if hourRunOk hr then
    match r1 with
    | ':' :: r2 =>
      let (mr, r3) := splitRun r2
      if minuteRunOk mr then
        if withSec then
          match r3 with
          | ':' :: r4 =>
            let (sr, r5) := splitRun r4
            if secondRunOk sr && r5.isEmpty then some (runVal hr, runVal mr, runVal sr)
            else none
          | _ => none
        else if r3.isEmpty then some (runVal hr, runVal mr, 0) else none
      else none
    | _ => none
  else none

/-- Model of `datetime.strptime(s, "%Y-%m-%d")` as an `Option` (a `ValueError` is
`none`). -/
def strptimeDate (s : String) : Option (Nat × Nat × Nat) :=
  match parseYmd s.data with
  | some (y, m, d, []) => if dtValid y m d 0 0 0 then some (y, m, d) else none
  | _ => none

/-- Model of `datetime.strptime(s, "%Y-%m-%d %H:%M")` as an `Option`. -/
def strptimeDateHM (s : String) : Option (Nat × Nat × Nat × Nat × Nat) :=
  match parseYmd s.data with
  | some (y, m, d, ' ' :: rest) =>
    match parseTime false rest with
    | some (h, mi, _) => if dtValid y m d h mi 0 then some (y, m, d, h, mi) else none
    | none => none
  | _ => none

/-- Model of `datetime.strptime(s, "%Y-%m-%d %H:%M:%S")` as an `Option`. -/
def strptimeDateHMS (s : String) : Option (Nat × Nat × Nat × Nat × Nat × Nat) :=
  match parseYmd s.data with
  | some (y, m, d, ' ' :: rest) =>
    match parseTime true rest with
    | some (h, mi, sec) =>
      if dtValid y m d h mi sec then some (y, m, d, h, mi, sec) else none
    | none => none
  | _ => none

/-- Two-digit zero-padded rendering, as `strftime`'s `%m %d %H %M %S`. -/
def pad2 (n : Nat) : String := ⟨[Nat.digitChar (n / 10 % 10), Nat.digitChar (n % 10)]⟩

/-- Four-digit zero-padded rendering, as CPython's documented `%Y`. -/
def pad4 (n : Nat) : String :=
  ⟨[Nat.digitChar (n / 1000 % 10), Nat.digitChar (n / 100 % 10),
    Nat.digitChar (n / 10 % 10), Nat.digitChar (n % 10)]⟩

/-- Model of `dt.strftime('%Y%m%d%H%M%S')`. -/
def strftime14 (y m d h mi sec : Nat) : String :=
  pad4 y ++ pad2 m ++ pad2 d ++ pad2 h ++ pad2 mi ++ pad2 sec

/-- Model of `s.replace("T", " ")` (single-character pattern: per-character map). -/
def pyReplaceT (s : String) : String :=
  ⟨s.data.map (fun c => if c = 'T' then ' ' else c)⟩

/-- The function `format_date_for_pdf` of `src/tools_dev/pdf/web/app.py` (lines 111–118):
falsy input yields `None`; `"T"` is normalized to a space; strings longer
than 10 characters are parsed as `"%Y-%m-%d %H:%M"`, others as `"%Y-%m-%d"`;
a `ValueError` yields `None`. -/
def format_date_for_pdf_web (dateStr : Option String) : Option String :=
  match dateStr with
  | none => none
  | some s0 =>
    if s0.isEmpty then none
    else
      let s := pyReplaceT s0
      if s.length > 10 then
        match strptimeDateHM s with
        | some (y, m, d, h, mi) => some ("D:" ++ strftime14 y m d h mi 0)
        | none => none
      else
        match strptimeDate s with
        | some (y, m, d) => some ("D:" ++ strftime14 y m d 0 0 0)
        | none => none

/-- The function `format_date_for_pdf` of `src/tools_cli/pdf/compress_pdf.py`
(lines 21–41): falsy input yields `None`; tries `"%Y-%m-%d %H:%M:%S"`, then
`"%Y-%m-%d"`; if both fail it prints a message and yields `None` (the print
goes to stdout and is not threaded here: the function is pure in the model
as its caller ignores that line). -/
def format_date_for_pdf_cli (dateStr : Option String) : Option String :=
  match dateStr with
  | none => none
  | some s =>
    if s.isEmpty then none
    else
      match strptimeDateHMS s with
      | some (y, m, d, h, mi, sec) => some ("D:" ++ strftime14 y m d h mi sec)
      | none =>
        match strptimeDate s with
        | some (y, m, d) => some ("D:" ++ strftime14 y m d 0 0 0)
        | none => none

/-! ## Metadata merging -/

/-- The optional form fields of the web variant (`request.form.get` yields
`None` for an absent field). -/
structure MetadataForm where
  author : Option String
  title : Option String
  subject : Option String
  created_date : Option String
  modified_date : Option String
  password : Option String
  deriving Repr, DecidableEq

/-- The metadata CLI arguments (`argparse` yields `None` for an absent one). -/
structure CliArgs where
  title : Option String
  author : Option String
  subject : Option String
  created : Option String
  modified : Option String
  deriving Repr, DecidableEq

/-- The title fallback of `process_single_pdf` (app.py lines 163–164):
`final_title = metadata_form.get('title')`, replaced by the filename stem
when falsy. -/
def webFinalTitle (form : MetadataForm) (filename : String) : String :=
  if truthy form.title then strOf form.title else splitextStem filename

/-- The metadata merge of `process_single_pdf` (app.py lines 163–189): copy
`reader.metadata`, then conditionally assign `/Title`, `/Author`,
`/Subject`, `/CreationDate`, `/ModDate` exactly as the truthiness checks of
the source do. -/
def web_merge_metadata (readerMeta : List (String × String)) (form : MetadataForm)
    (filename : String) : List (String × String) :=
  let final_title := webFinalTitle form filename
  let m0 := dictCopy readerMeta
  let m1 := if !final_title.isEmpty then dictSet m0 "/Title" final_title else m0
  let m2 := if truthy form.author then dictSet m1 "/Author" (strOf form.author) else m1
  let m3 := if truthy form.subject then dictSet m2 "/Subject" (strOf form.subject) else m2
  let m4 := match format_date_for_pdf_web form.created_date with
    | some d => dictSet m3 "/CreationDate" d
    | none => m3
  match format_date_for_pdf_web form.modified_date with
  | some d => dictSet m4 "/ModDate" d
  | none => m4

/-- The metadata merge of `add_metadata` (compress_pdf.py lines 55–79): copy
`reader.metadata`, conditionally assign `/Title`, `/Author`, `/Subject`,
then the dates behind the source's nested truthiness checks. -/
def cli_merge_metadata (readerMeta : List (String × String)) (args : CliArgs) :
    List (String × String) :=
  let m0 := dictCopy readerMeta
  let m1 := if truthy args.title then dictSet m0 "/Title" (strOf args.title) else m0
  let m2 := if truthy args.author then dictSet m1 "/Author" (strOf args.author) else m1
  let m3 := if truthy args.subject then dictSet m2 "/Subject" (strOf args.subject) else m2
  let m4 :=
    if truthy args.created then
      match format_date_for_pdf_cli args.created with
      | some d => dictSet m3 "/CreationDate" d
      | none => m3
    else m3
  if truthy args.modified then
    match format_date_for_pdf_cli args.modified with
    | some d => dictSet m4 "/ModDate" d
    | none => m4
  else m4

/-- Injective placeholder for the bytes `PdfWriter.write` serializes: the
copied pages, the merged metadata mapping, and the optional encryption
password. -/
def writerRender (pages : String) (meta : List (String × String))
    (password : Option String) : String :=
  "PDF[" ++ pages ++ "|" ++
    (meta.map (fun kv => kv.1 ++ "=" ++ kv.2 ++ ";")).foldl (· ++ ·) "" ++ "|" ++
    (match password with | some p => "enc:" ++ p | none => "plain") ++ "]"

/-! ## The web per-file pipeline (`process_single_pdf`, app.py lines 134–294)

The result is `none` for the failed sentinel `(None, None, None)` and
`some (input_path, output_path, filename)` for the success triple — the
Python tuple is always one of those two shapes, and the caller's
`if out_p:` test is exactly `isSome`.

The duplicated block at lines 212–294 sits after the `return` statement of
the `except` handler and is unreachable; it is not part of the function's
behavior and is not modelled. -/

/-- An uploaded file: declared filename plus stream content. -/
structure FileStorage where
  filename : String
  content : String
  deriving Repr, DecidableEq

/-- Oracle for one file's external effects: the drawn `uuid`, whether
`file_storage.save` succeeds, whether Ghostscript is on the path and exits
zero (and the bytes it writes), whether `PdfReader` parses (and the
metadata it reports), and whether `writer.write` succeeds. -/
structure FileEnv where
  uuid : String
  saveOk : Bool
  gsFound : Bool
  gsOk : Bool
  compressedContent : String
  readerOk : Bool
  readerMeta : List (String × String)
  writeOk : Bool
  deriving Repr, DecidableEq

/-- The constant `UPLOAD_FOLDER` (app.py line 43). -/
def UPLOAD_FOLDER : String := "temp_uploads"

/-- The path `os.path.join(UPLOAD_FOLDER, f"{unique_id}_{filename}")`. -/
def inputPathOf (env : FileEnv) (f : FileStorage) : String :=
  UPLOAD_FOLDER ++ "/" ++ env.uuid ++ "_" ++ f.filename

/-- The path `os.path.join(UPLOAD_FOLDER, f"{unique_id}_processed_{filename}")`. -/
def outputPathOf (env : FileEnv) (f : FileStorage) : String :=
  UPLOAD_FOLDER ++ "/" ++ env.uuid ++ "_processed_" ++ f.filename

/-- The lookup `quality.get(str(compression_level), '/printer')` (app.py lines 150–151). -/
def qualitySetting (level : String) : String :=
  if level = "0" then "/default"
  else if level = "1" then "/prepress"
  else if level = "2" then "/printer"
  else if level = "3" then "/ebook"
  else if level = "4" then "/screen"
  else "/printer"

/-- Model of `file_storage.save(input_path)`. -/
def saveUpload (env : FileEnv) (f : FileStorage) (input_path : String) : PyM Unit :=
  if env.saveOk then fsSet input_path f.content
  else pyRaise (.exception ("save failed: " ++ input_path))

/-- The `try:` body of `process_single_pdf` (app.py lines 143–205).  Its
second statement calls `get_file_size_mb`, a name defined nowhere in the
repository, so Python raises `NameError` there; every later statement is
translated but unreachable. -/
def process_single_pdf_body (env : FileEnv) (f : FileStorage) (level : String)
    (form : MetadataForm) : PyM (String × String × String) :=
  let input_path := inputPathOf env f
  let output_path := outputPathOf env f
  pyBind (saveUpload env f input_path) (fun _ =>
  -- `original_size = get_file_size_mb(input_path)`: undefined global.
  pyBind (pyRaise (α := Nat) (.nameError "get_file_size_mb")) (fun _original_size =>
  pyBind (pyLog ("Fichier reçu: " ++ f.filename)) (fun _ =>
  pyBind (if env.gsFound then pyPure () else pyRaise (.exception "Ghostscript non trouvé.")) (fun _ =>
  let _settings := qualitySetting level
  pyBind (pyLog ("Démarrage compression (Niveau " ++ level ++ ") pour " ++ f.filename ++ "...")) (fun _ =>
  -- `subprocess.run([...], check=True)`
  pyBind (if env.gsOk then fsSet output_path env.compressedContent
          else pyRaise (.calledProcessError "gs")) (fun _ =>
  -- metadata & security
  pyBind (fsRead output_path) (fun outBytes =>
  pyBind (if env.readerOk then pyPure env.readerMeta else pyRaise (.exception "PdfReadError")) (fun readerMeta =>
  let new_metadata := web_merge_metadata readerMeta form f.filename
  pyBind (if truthy form.password then pyLog ("Chiffrement activé pour " ++ f.filename)
          else pyPure ()) (fun _ =>
  let pw := if truthy form.password then some (strOf form.password) else none
  let temp_meta := output_path ++ ".final"
  pyBind (if env.writeOk then fsSet temp_meta (writerRender outBytes new_metadata pw)
          else pyRaise (.exception "write failed")) (fun _ =>
  pyBind (fsMove temp_meta output_path) (fun _ =>
  -- `new_size = get_file_size_mb(output_path)`: the same undefined global.
  pyBind (pyRaise (α := Nat) (.nameError "get_file_size_mb")) (fun _new_size =>
  pyBind (pyLog ("Succès " ++ f.filename)) (fun _ =>
  pyPure (input_path, output_path, f.filename))))))))))))))

/-- The function `process_single_pdf` (app.py lines 134–210): the body above wrapped in
the per-file `except Exception` handler, which logs the error with the
filename, removes the input artifact when present, and returns the failed
sentinel. -/
def process_single_pdf (env : FileEnv) (f : FileStorage) (level : String)
    (form : MetadataForm) : PyM (Option (String × String × String)) :=
  let input_path := inputPathOf env f
  pyTry (pyBind (process_single_pdf_body env f level form) (fun r => pyPure (some r)))
    (fun e =>
      pyBind (pyLog ("Erreur sur " ++ f.filename ++ ": " ++ e.msg)) (fun _ =>
      pyBind (fsRemoveIfExists input_path) (fun _ =>
      pyPure none)))

/-! ## The `/compress` route (app.py lines 301–372) -/

/-- The payload of a successful response: raw bytes of a single file, or an
in-memory zip as its list of (arcname, bytes) entries in write order
(`zipf.write(output_path, download_name)` stores the bytes of
`output_path` under arcname `download_name`; duplicate arcnames are kept,
extraction being last-wins). -/
inductive Payload where
  | raw (bytes : String)
  | zipArchive (entries : List (String × String))
  deriving Repr, DecidableEq

/-- The `/compress` route's JSON response: a structured error with its HTTP
status, or the success body (previews, file_name, file_data).  `file_data`
is base64-encoded in the source; base64 is injective, so the payload is
carried structurally. -/
inductive Response where
  | err (msg : String) (code : Nat)
  | success (previews : Option Unit) (fileName : String) (payload : Payload)
  deriving Repr, DecidableEq

/-- Batch-level oracle: whether the preview rendering of the first success
produces both images (`generate_preview_base64` catches its own errors and
yields `None` on failure, so it only affects the `previews` field). -/
structure BatchEnv where
  previewOk : Bool
  deriving Repr, DecidableEq

/-- A processed-files entry `(in_p, out_p, name)` as appended at app.py
line 330. -/
abbrev Processed := String × String × String

/-- The per-file loop (app.py lines 322–335): skip filenames that do not
end in `.pdf` (case-insensitively) with a warning, run `process_single_pdf`
on the rest, and collect the triples whose `out_p` is truthy. -/
def processLoop (level : String) (form : MetadataForm) :
    List (FileStorage × FileEnv) → PyM (List Processed)
  | [] => pyPure []
  | (f, env) :: rest =>
    if !(f.filename.toLower.endsWith ".pdf") then
      pyBind (pyLog ("Fichier ignoré (Type non supporté) : " ++ f.filename)) (fun _ =>
        processLoop level form rest)
    else
      pyBind (process_single_pdf env f level form) (fun r =>
        match r with
        | some triple =>
          pyBind (processLoop level form rest) (fun acc => pyPure (triple :: acc))
        | none => processLoop level form rest)

/-- The variable `previews` (app.py lines 331–335): set from the first success when both
preview images generate; `None` otherwise.  `generate_preview_base64`
swallows its own exceptions, so this never raises. -/
def previewsOf (benv : BatchEnv) (processed : List Processed) : Option Unit :=
  if processed.isEmpty then none
  else if benv.previewOk then some () else none

/-- Read each successful output and store it in the in-memory zip under its
original filename (app.py lines 352–354); `zipf.write` raises
`FileNotFoundError` when the path is gone. -/
def zipEntries : List Processed → PyM (List (String × String))
  | [] => pyPure []
  | (_, out_p, name) :: rest =>
    pyBind (fsRead out_p) (fun bytes =>
    pyBind (zipEntries rest) (fun es =>
    pyPure ((name, bytes) :: es)))

/-- The cleanup loop (app.py lines 358–363): for every processed triple,
remove input and output artifacts when present; its `except: pass` can
never fire in the model since guarded removal does not raise. -/
def cleanupAll : List Processed → PyM Unit
  | [] => pyPure ()
  | (in_p, out_p, _) :: rest =>
    pyBind (fsRemoveIfExists in_p) (fun _ =>
    pyBind (fsRemoveIfExists out_p) (fun _ =>
    cleanupAll rest))

/-- The output assembly, cleanup, and response of the `/compress` route
(app.py lines 337–372), taking the collected `processed_files`:
empty → the batch-empty 500 error; exactly one → that file's raw bytes
under its original filename; more than one → the in-memory archive
`documents_optimises.zip`.  Cleanup is sequenced *after* assembly (it is
not a `finally`). -/
def batch_stage (benv : BatchEnv) (processed : List Processed) : PyM Response :=
  match processed with
  | [] => pyPure (.err "Aucun fichier PDF valide n'a été traité." 500)
  | [(in_p, out_p, name)] =>
    pyBind (fsRead out_p) (fun bytes =>
    pyBind (cleanupAll [(in_p, out_p, name)]) (fun _ =>
    pyBind (pyLog "Batch terminé") (fun _ =>
    pyPure (.success (previewsOf benv [(in_p, out_p, name)]) name (.raw bytes)))))
  | ps =>
    pyBind (zipEntries ps) (fun entries =>
    pyBind (cleanupAll ps) (fun _ =>
    pyBind (pyLog "Batch terminé") (fun _ =>
    pyPure (.success (previewsOf benv ps) "documents_optimises.zip"
      (.zipArchive entries)))))

/-- The `/compress` route (app.py lines 301–372): request guards, the
per-file loop, then `batch_stage`. -/
def compress (benv : BatchEnv) (files : List (FileStorage × FileEnv))
    (level : String) (form : MetadataForm) : PyM Response :=
  match files with
  | [] => pyPure (.err "Aucun fichier" 400)
  | (f0, _) :: _ =>
    if f0.filename = "" then pyPure (.err "Aucun fichier sélectionné" 400)
    else
      pyBind (pyLog ("=== Début traitement de " ++ toString files.length ++
        " fichier(s) potentiels ===")) (fun _ =>
      pyBind (processLoop level form files) (fun processed =>
      batch_stage benv processed))

/-! ## The CLI variant (`src/tools_cli/pdf/compress_pdf.py`) -/

/-- Oracle for the CLI's external effects. -/
structure CliEnv where
  gsFound : Bool
  gsOk : Bool
  compressedContent : String
  readerOk : Bool
  readerMeta : List (String × String)
  writeOk : Bool
  deriving Repr, DecidableEq

/-- The check `any([args.title, args.author, args.subject, args.created,
args.modified])` (compress_pdf.py line 131). -/
def anyMetadataArg (args : CliArgs) : Bool :=
  truthy args.title || truthy args.author || truthy args.subject ||
    truthy args.created || truthy args.modified

/-- The function `add_metadata` (compress_pdf.py lines 43–96): read the compressed file,
merge the metadata, write the result to `<path>.meta.tmp` and move it over
the path; any exception is caught, a warning is printed, and the temp file
is removed when present. -/
def add_metadata (env : CliEnv) (file_path : String) (args : CliArgs) : PyM Unit :=
  let temp_file := file_path ++ ".meta.tmp"
  pyTry
    (pyBind (fsRead file_path) (fun content =>
     pyBind (if env.readerOk then pyPure env.readerMeta
             else pyRaise (.exception "PdfReadError")) (fun readerMeta =>
     let new_metadata := cli_merge_metadata readerMeta args
     pyBind (if env.writeOk then fsSet temp_file (writerRender content new_metadata none)
             else pyRaise (.exception "write failed")) (fun _ =>
     pyBind (fsMove temp_file file_path) (fun _ =>
     pyLog "--- Métadonnées ajoutées avec succès ---")))))
    (fun e =>
      pyBind (pyLog ("Attention : Impossible d'ajouter les métadonnées : " ++ e.msg)) (fun _ =>
      fsRemoveIfExists temp_file))

/-- Outcome of a CLI run: `sys.exit(code)` or normal completion with the
output path. -/
inductive CliOutcome where
  | exited (code : Nat)
  | done (output_file : String)
  deriving Repr, DecidableEq

/-- The function `compress_pdf` (compress_pdf.py lines 98–144): existence and
Ghostscript checks (each a `sys.exit(1)`), the Ghostscript invocation and
metadata step inside a `try` whose `except` catches only
`CalledProcessError`, then the size statistics. -/
def compress_pdf_cli (env : CliEnv) (input_file : String) (args : CliArgs) :
    PyM CliOutcome :=
  pyBind (fun s => (.ok (fsExistsB input_file s.fs), s)) (fun inputExists =>
  if !inputExists then
    pyBind (pyLog ("Erreur : Le fichier '" ++ input_file ++ "' est introuvable.")) (fun _ =>
    pyPure (.exited 1))
  else if !env.gsFound then
    pyBind (pyLog "Erreur : Ghostscript introuvable.") (fun _ =>
    pyPure (.exited 1))
  else
    let output_file := splitextStem input_file ++ "_compressed" ++ splitextExt input_file
    pyBind (pyLog ("--- Compression de '" ++ input_file ++ "' ---")) (fun _ =>
    pyTryOn (fun e => match e with | .calledProcessError _ => true | _ => false)
      (pyBind (if env.gsOk then fsSet output_file env.compressedContent
               else pyRaise (.calledProcessError "gs")) (fun _ =>
       pyBind (if anyMetadataArg args then add_metadata env output_file args
               else pyPure ()) (fun _ =>
       pyBind (pyLog "--- Terminé ---") (fun _ =>
       pyBind (pyLog ("Fichier : " ++ output_file)) (fun _ =>
       pyPure (.done output_file))))))
      (fun _e =>
        pyBind (pyLog "Erreur Ghostscript") (fun _ =>
        pyPure (.done output_file)))))

/-! ## Auxiliary definitions used by the proofs -/

/-- The last binding of `k` in an association list traversed left to right —
what the dict copy loop ends up storing. -/
def dictGetLast : List (String × String) → String → Option String
  | [], _ => none
  | kv :: rest, k =>
    match dictGetLast rest k with
    | some v => some v
    | none => if kv.1 = k then some kv.2 else none

/-- Path freshness: `p` is not a key of `fs`. -/
def pathFree (p : String) (fs : FS) : Prop := ∀ kv ∈ fs, kv.1 ≠ p

/-- The head of the list, if any, is not a digit (so a digit run ends
exactly there). -/
def headNotDigit : List Char → Prop
  | [] => True
  | c :: _ => c.isDigit = false

/-- Canonical `"YYYY-MM-DD"`. -/
def renderDate (y m d : Nat) : String :=
  ⟨(pad4 y).data ++ '-' :: ((pad2 m).data ++ '-' :: (pad2 d).data)⟩

/-- Canonical `"YYYY-MM-DD<sep>HH:MM"` (`sep` is `' '` or `'T'`). -/
def renderDateTime (sep : Char) (y m d h mi : Nat) : String :=
  ⟨(renderDate y m d).data ++ sep :: ((pad2 h).data ++ ':' :: (pad2 mi).data)⟩

/-- Canonical `"YYYY-MM-DD<sep>HH:MM:SS"`. -/
def renderDateTimeSec (sep : Char) (y m d h mi sec : Nat) : String :=
  ⟨(renderDateTime sep y m d h mi).data ++ ':' :: (pad2 sec).data⟩

/-! ## Dictionary lemmas -/

theorem dictGet_dictSet (d : List (String × String)) (k v k' : String) :
    dictGet (dictSet d k v) k' = if k = k' then some v else dictGet d k' := by
  induction d with
  | nil => simp [dictSet, dictGet]
  | cons kv rest ih =>
    by_cases h1 : kv.1 = k
    · obtain ⟨k1, v1⟩ := kv
      simp only at h1
      subst h1
      by_cases h2 : k1 = k'
      · subst h2; simp [dictSet, dictGet]
      · simp [dictSet, dictGet, h2]
    · obtain ⟨k1, v1⟩ := kv
      simp only at h1
      by_cases h2 : k1 = k'
      · subst h2
        have hk : ¬ k = k1 := fun h => h1 h.symm
        simp [dictSet, dictGet, h1, hk]
      · simp [dictSet, dictGet, h1, h2, ih]

theorem dictGet_dictSet_self (d : List (String × String)) (k v : String) :
    dictGet (dictSet d k v) k = some v := by
  simp [dictGet_dictSet]

theorem dictGet_dictSet_ne (d : List (String × String)) {k k' : String} (v : String)
    (h : k ≠ k') : dictGet (dictSet d k v) k' = dictGet d k' := by
  simp [dictGet_dictSet, h]

theorem isSome_dictGet_dictSet (d : List (String × String)) (k v k' : String)
    (h : (dictGet d k').isSome) : (dictGet (dictSet d k v) k').isSome := by
  rw [dictGet_dictSet]
  by_cases hk : k = k' <;> simp [hk, h]

theorem dictGet_foldl_dictSet (src : List (String × String)) :
    ∀ (acc : List (String × String)) (k : String),
      dictGet (src.foldl (fun d kv => dictSet d kv.1 kv.2) acc) k =
        match dictGetLast src k with
        | some v => some v
        | none => dictGet acc k := by
  induction src with
  | nil => intro acc k; simp [dictGetLast]
  | cons kv rest ih =>
    intro acc k
    simp only [List.foldl_cons, ih, dictGetLast]
    cases h : dictGetLast rest k with
    | some v => simp
    | none =>
      simp only
      rw [dictGet_dictSet]
      by_cases hk : kv.1 = k
      · simp [hk]
      · simp [hk]

theorem dictGetLast_eq_none_of_not_mem {src : List (String × String)} {k : String}
    (h : k ∉ src.map Prod.fst) : dictGetLast src k = none := by
  induction src with
  | nil => simp [dictGetLast]
  | cons kv rest ih =>
    simp only [List.map_cons, List.mem_cons] at h
    push_neg at h
    simp [dictGetLast, ih h.2, Ne.symm h.1]

theorem dictGetLast_eq_dictGet {src : List (String × String)}
    (h : (src.map Prod.fst).Nodup) (k : String) :
    dictGetLast src k = dictGet src k := by
  induction src with
  | nil => rfl
  | cons kv rest ih =>
    simp only [List.map_cons, List.nodup_cons] at h
    by_cases hk : kv.1 = k
    · subst hk
      rw [dictGetLast, dictGetLast_eq_none_of_not_mem h.1]
      simp [dictGet]
    · rw [dictGetLast, ih h.2]
      cases hg : dictGet rest k with
      | some v => simp [dictGet, hk, hg]
      | none => simp [dictGet, hk, hg]

theorem dictGet_dictCopy {src : List (String × String)}
    (h : (src.map Prod.fst).Nodup) (k : String) :
    dictGet (dictCopy src) k = dictGet src k := by
  rw [dictCopy, dictGet_foldl_dictSet, dictGetLast_eq_dictGet h]
  cases dictGet src k <;> simp [dictGet]

theorem dictGetLast_isSome_of_get {src : List (String × String)} {k : String}
    (h : (dictGet src k).isSome) : (dictGetLast src k).isSome := by
  induction src with
  | nil => simp [dictGet] at h
  | cons kv rest ih =>
    rw [dictGet] at h
    rw [dictGetLast]
    by_cases hk : kv.1 = k
    · cases hg : dictGetLast rest k <;> simp [hk, hg]
    · simp only [hk, if_false] at h
      cases hg : dictGetLast rest k with
      | some v => simp
      | none => have := ih h; rw [hg] at this; simp at this

theorem isSome_dictGet_dictCopy {src : List (String × String)} {k : String}
    (h : (dictGet src k).isSome) : (dictGet (dictCopy src) k).isSome := by
  rw [dictCopy, dictGet_foldl_dictSet]
  have h2 := dictGetLast_isSome_of_get h
  cases hg : dictGetLast src k with
  | some v => simp
  | none => rw [hg] at h2; simp at h2

/-- Stability of `dictGet` under a conditional assignment of a *different* key. -/
theorem dictGet_iteSet (c : Prop) [Decidable c] (d : List (String × String))
    {k : String} (v : String) {k' : String} (h : k ≠ k') :
    dictGet (if c then dictSet d k v else d) k' = dictGet d k' := by
  split
  · exact dictGet_dictSet_ne d v h
  · rfl

/-- Stability of `dictGet` under an optional assignment of a *different* key. -/
theorem dictGet_optSet (o : Option String) (d : List (String × String))
    {k : String} {k' : String} (h : k ≠ k') :
    dictGet (match o with | some v => dictSet d k v | none => d) k' = dictGet d k' := by
  cases o with
  | some v => exact dictGet_dictSet_ne d v h
  | none => rfl

theorem isSome_dictGet_iteSet (c : Prop) [Decidable c] (d : List (String × String))
    (k : String) (v : String) (k' : String) (h : (dictGet d k').isSome) :
    (dictGet (if c then dictSet d k v else d) k').isSome := by
  split
  · exact isSome_dictGet_dictSet d k v k' h
  · exact h

theorem isSome_dictGet_optSet (o : Option String) (d : List (String × String))
    (k : String) (k' : String) (h : (dictGet d k').isSome) :
    (dictGet (match o with | some v => dictSet d k v | none => d) k').isSome := by
  cases o with
  | some v => exact isSome_dictGet_dictSet d k v k' h
  | none => exact h

/-! ## Filesystem lemmas -/

theorem fsErase_of_pathFree {p : String} {fs : FS} (h : pathFree p fs) :
    fsErase p fs = fs :=
  List.filter_eq_self.2 (fun kv hkv => by simpa using h kv hkv)

theorem fsErase_fsErase (p : String) (fs : FS) :
    fsErase p (fsErase p fs) = fsErase p fs := by
  apply List.filter_eq_self.2
  intro kv hkv
  simp only [fsErase, List.mem_filter] at hkv
  exact hkv.2

theorem fsErase_cons_self (p : String) (c : String) (fs : FS) :
    fsErase p ((p, c) :: fs) = fsErase p fs := by
  simp [fsErase]

theorem not_fsExistsB_fsErase (p : String) (fs : FS) :
    fsExistsB p (fsErase p fs) = false := by
  simp only [fsExistsB, fsErase, List.any_eq_false]
  intro kv hkv
  simp only [List.mem_filter] at hkv
  simpa using hkv.2

theorem fsGet_cons (kv : String × String) (fs : FS) (p : String) :
    fsGet p (kv :: fs) = if kv.1 = p then some kv.2 else fsGet p fs := by
  by_cases h : kv.1 = p <;> simp [fsGet, List.find?_cons, h]

theorem fsErase_cons (p : String) (kv : String × String) (fs : FS) :
    fsErase p (kv :: fs) = if kv.1 = p then fsErase p fs else kv :: fsErase p fs := by
  by_cases h : kv.1 = p <;> simp [fsErase, List.filter_cons, h]

theorem fsGet_fsErase_ne {p q : String} (fs : FS) (h : p ≠ q) :
    fsGet p (fsErase q fs) = fsGet p fs := by
  induction fs with
  | nil => rfl
  | cons kv rest ih =>
    rw [fsErase_cons]
    by_cases hq : kv.1 = q
    · have hp : kv.1 ≠ p := by rw [hq]; exact Ne.symm h
      simp only [hq, if_true]
      rw [ih, fsGet_cons]
      simp [hp]
    · simp only [hq, if_false]
      rw [fsGet_cons, fsGet_cons, ih]

theorem fsGet_cons_self (p c : String) (fs : FS) :
    fsGet p ((p, c) :: fs) = some c := by
  simp [fsGet, List.find?_cons]

theorem pathFree_fsGet_none {p : String} {fs : FS} (h : pathFree p fs) :
    fsGet p fs = none := by
  induction fs with
  | nil => rfl
  | cons kv rest ih =>
    rw [fsGet_cons]
    have h1 := h kv (by simp)
    simp only [h1, if_false]
    exact ih (fun x hx => h x (by simp [hx]))

/-! ## Running the web per-file pipeline

`process_single_pdf` always returns the failed sentinel: its `try:` body
raises before Ghostscript ever runs (`saveUpload` may fail; if it succeeds,
the reference to the undefined `get_file_size_mb` raises `NameError`), and
the handler then logs the error with the filename and deletes the input
artifact.  The net state effect is exactly "erase the input path". -/

theorem run_process_single_pdf (env : FileEnv) (f : FileStorage) (level : String)
    (form : MetadataForm) (s : PyState) :
    ∃ m : String,
      process_single_pdf env f level form s =
        (.ok none, ⟨fsErase (inputPathOf env f) s.fs,
          s.log ++ ["Erreur sur " ++ f.filename ++ ": " ++ m]⟩) := by
  cases hs : env.saveOk with
  | false =>
    refine ⟨PyErr.msg (.exception ("save failed: " ++ inputPathOf env f)), ?_⟩
    simp [process_single_pdf, process_single_pdf_body, pyTry, pyBind, saveUpload, hs,
      pyRaise, pyLog, fsRemoveIfExists, pyPure]
  | true =>
    refine ⟨PyErr.msg (.nameError "get_file_size_mb"), ?_⟩
    simp [process_single_pdf, process_single_pdf_body, pyTry, pyBind, saveUpload, hs,
      fsSet, pyRaise, pyLog, fsRemoveIfExists, pyPure, fsErase_cons_self, fsErase_fsErase]

/-- The `/compress` per-file loop never collects a success, leaves the
filesystem exactly as found provided the batch's input artifact paths are
fresh, and only appends log lines; every file whose name passes the `.pdf`
filter contributes its per-file error line. -/
theorem run_processLoop (level : String) (form : MetadataForm) :
    ∀ (files : List (FileStorage × FileEnv)) (s : PyState),
      (∀ fe ∈ files, pathFree (inputPathOf fe.2 fe.1) s.fs) →
      ∃ lg : Log,
        processLoop level form files s = (.ok [], ⟨s.fs, s.log ++ lg⟩) ∧
        (∀ fe ∈ files, fe.1.filename.toLower.endsWith ".pdf" = true →
          ∃ m, ("Erreur sur " ++ fe.1.filename ++ ": " ++ m) ∈ lg) := by
  intro files
  induction files with
  | nil =>
    intro s _
    exact ⟨[], by simp [processLoop, pyPure], by simp⟩
  | cons fe rest ih =>
    intro s hfree
    obtain ⟨f, env⟩ := fe
    by_cases hpdf : f.filename.toLower.endsWith ".pdf"
    · obtain ⟨m, hm⟩ := run_process_single_pdf env f level form s
      have herase : fsErase (inputPathOf env f) s.fs = s.fs :=
        fsErase_of_pathFree (hfree (f, env) (by simp))
      rw [herase] at hm
      set s1 : PyState := ⟨s.fs, s.log ++ ["Erreur sur " ++ f.filename ++ ": " ++ m]⟩ with hs1
      obtain ⟨lg, hrec, hlog⟩ := ih s1 (fun x hx => hfree x (by simp [hx]))
      refine ⟨("Erreur sur " ++ f.filename ++ ": " ++ m) :: lg, ?_, ?_⟩
      · rw [processLoop]
        simp only [hpdf, Bool.not_true, Bool.false_eq_true, if_false]
        rw [pyBind, hm]
        simpa [hs1, List.append_assoc] using hrec
      · intro fe' hfe' hpdf'
        rcases List.mem_cons.1 hfe' with h | h
        · exact ⟨m, by simp [h]⟩
        · obtain ⟨m', hm'⟩ := hlog fe' h hpdf'
          exact ⟨m', by simp [hm']⟩
    · set s1 : PyState := ⟨s.fs, s.log ++ ["Fichier ignoré (Type non supporté) : " ++ f.filename]⟩ with hs1
      obtain ⟨lg, hrec, hlog⟩ := ih s1 (fun x hx => hfree x (by simp [hx]))
      refine ⟨("Fichier ignoré (Type non supporté) : " ++ f.filename) :: lg, ?_, ?_⟩
      · rw [processLoop]
        simp only [hpdf]
        simp only [Bool.not_false, if_true]
        rw [pyBind, pyLog]
        simpa [hs1, List.append_assoc] using hrec
      · intro fe' hfe' hpdf'
        rcases List.mem_cons.1 hfe' with h | h
        · exfalso; rw [h] at hpdf'; simp [hpdf'] at hpdf
        · obtain ⟨m', hm'⟩ := hlog fe' h hpdf'
          exact ⟨m', by simp [hm']⟩

/-- Without any freshness assumption: the loop still collects no success. -/
theorem run_processLoop_result (level : String) (form : MetadataForm) :
    ∀ (files : List (FileStorage × FileEnv)) (s : PyState),
      ∃ s' : PyState, processLoop level form files s = (.ok [], s') := by
  intro files
  induction files with
  | nil => intro s; exact ⟨s, by simp [processLoop, pyPure]⟩
  | cons fe rest ih =>
    intro s
    obtain ⟨f, env⟩ := fe
    by_cases hpdf : f.filename.toLower.endsWith ".pdf"
    · obtain ⟨m, hm⟩ := run_process_single_pdf env f level form s
      obtain ⟨s', hs'⟩ := ih ⟨fsErase (inputPathOf env f) s.fs,
        s.log ++ ["Erreur sur " ++ f.filename ++ ": " ++ m]⟩
      refine ⟨s', ?_⟩
      rw [processLoop]
      simp only [hpdf, Bool.not_true, Bool.false_eq_true, if_false]
      rw [pyBind, hm]
      exact hs'
    · obtain ⟨s', hs'⟩ := ih ⟨s.fs, s.log ++ ["Fichier ignoré (Type non supporté) : " ++ f.filename]⟩
      refine ⟨s', ?_⟩
      rw [processLoop]
      simp only [hpdf, Bool.not_false, if_true]
      rw [pyBind, pyLog]
      exact hs'

/-! ## Running the assembly stage -/

theorem run_zipEntries :
    ∀ (ps : List Processed) (s : PyState),
      (∀ p ∈ ps, (fsGet p.2.1 s.fs).isSome) →
      ∃ entries : List (String × String),
        zipEntries ps s = (.ok entries, s) ∧
        entries.map Prod.fst = ps.map (fun p => p.2.2) ∧
        entries.length = ps.length := by
  intro ps
  induction ps with
  | nil => intro s _; exact ⟨[], by simp [zipEntries, pyPure], by simp, by simp⟩
  | cons p rest ih =>
    intro s hread
    obtain ⟨i, o, n⟩ := p
    obtain ⟨c, hc⟩ := Option.isSome_iff_exists.1 (hread (i, o, n) (by simp))
    obtain ⟨entries, heq, hmap, hlen⟩ := ih s (fun x hx => hread x (by simp [hx]))
    refine ⟨(n, c) :: entries, ?_, by simp [hmap], by simp [hlen]⟩
    rw [zipEntries]
    simp only at hc
    simp only [pyBind, fsRead, hc, heq, pyPure]

theorem run_cleanupAll :
    ∀ (ps : List Processed) (s : PyState),
      ∃ fs' : FS, cleanupAll ps s = (.ok (), ⟨fs', s.log⟩) := by
  intro ps
  induction ps with
  | nil => intro s; exact ⟨s.fs, by simp [cleanupAll, pyPure]⟩
  | cons p rest ih =>
    intro s
    obtain ⟨i, o, n⟩ := p
    obtain ⟨fs', h⟩ := ih ⟨fsErase o (fsErase i s.fs), s.log⟩
    refine ⟨fs', ?_⟩
    rw [cleanupAll, pyBind, fsRemoveIfExists]
    simp only
    rw [pyBind, fsRemoveIfExists]
    exact h

/-! ## Running the `/compress` route -/

/-- Any request that passes the two request guards ends in the batch-empty
500 error: no per-file run can succeed. -/
theorem run_compress_err (benv : BatchEnv) (files : List (FileStorage × FileEnv))
    (level : String) (form : MetadataForm) (s : PyState)
    (h1 : files ≠ []) (h2 : ∀ f0, files.head? = some f0 → f0.1.filename ≠ "") :
    ∃ s', compress benv files level form s =
      (.ok (.err "Aucun fichier PDF valide n'a été traité." 500), s') := by
  match files with
  | [] => exact absurd rfl h1
  | (f0, env0) :: rest =>
    have hname : f0.filename ≠ "" := h2 (f0, env0) rfl
    obtain ⟨s2, hloop⟩ := run_processLoop_result level form ((f0, env0) :: rest)
      ⟨s.fs, s.log ++ ["=== Début traitement de " ++
        toString ((f0, env0) :: rest).length ++ " fichier(s) potentiels ==="]⟩
    refine ⟨s2, ?_⟩
    rw [compress]
    simp only [hname, if_false]
    rw [pyBind, pyLog]
    simp only
    rw [pyBind, hloop]
    simp [batch_stage, pyPure]

/-- The route `/compress` leaves the working directory exactly as it found it when
the batch's input artifact paths are fresh: each per-file handler removes
its own input immediately, and nothing else is ever created. -/
theorem run_compress_fs (benv : BatchEnv) (files : List (FileStorage × FileEnv))
    (level : String) (form : MetadataForm) (s : PyState)
    (hfree : ∀ fe ∈ files, pathFree (inputPathOf fe.2 fe.1) s.fs) :
    ((compress benv files level form) s).2.fs = s.fs := by
  match files with
  | [] => simp [compress, pyPure]
  | (f0, env0) :: rest =>
    by_cases hname : f0.filename = ""
    · simp [compress, hname, pyPure]
    · obtain ⟨lg, hloop, _⟩ := run_processLoop level form ((f0, env0) :: rest)
        ⟨s.fs, s.log ++ ["=== Début traitement de " ++
          toString ((f0, env0) :: rest).length ++ " fichier(s) potentiels ==="]⟩
        hfree
      rw [compress]
      simp only [hname, if_false]
      rw [pyBind, pyLog]
      simp only
      rw [pyBind, hloop]
      simp [batch_stage, pyPure]

/-- The single-success branch of the assembly stage: the one file's bytes
are returned raw, under its original filename. -/
theorem run_batch_stage_single (benv : BatchEnv) (s : PyState) (i o n c : String)
    (hc : fsGet o s.fs = some c) :
    ∃ fs' : FS, batch_stage benv [(i, o, n)] s =
      (.ok (.success (previewsOf benv [(i, o, n)]) n (.raw c)),
        ⟨fs', s.log ++ ["Batch terminé"]⟩) := by
  obtain ⟨fs', hclean⟩ := run_cleanupAll [(i, o, n)] s
  refine ⟨fs', ?_⟩
  rw [batch_stage]
  simp only [pyBind, fsRead, hc, hclean, pyLog, pyPure]

/-- The multi-success branch of the assembly stage: an in-memory archive
named `documents_optimises.zip` whose entry names are exactly the original
filenames of the successes, in order. -/
theorem run_batch_stage_zip (benv : BatchEnv) (s : PyState) (a b : Processed)
    (t : List Processed)
    (hread : ∀ p ∈ (a :: b :: t : List Processed), (fsGet p.2.1 s.fs).isSome) :
    ∃ (entries : List (String × String)) (fs' : FS),
      batch_stage benv (a :: b :: t) s =
        (.ok (.success (previewsOf benv (a :: b :: t)) "documents_optimises.zip"
          (.zipArchive entries)), ⟨fs', s.log ++ ["Batch terminé"]⟩) ∧
      entries.map Prod.fst = (a :: b :: t).map (fun p => p.2.2) ∧
      entries.length = (a :: b :: t).length := by
  obtain ⟨entries, hzip, hmap, hlen⟩ := run_zipEntries (a :: b :: t) s hread
  obtain ⟨fs', hclean⟩ := run_cleanupAll (a :: b :: t) s
  refine ⟨entries, fs', ?_, hmap, hlen⟩
  rw [batch_stage]
  · simp only [pyBind, hzip, hclean, pyLog, pyPure]
  · simp
  · intro i o n h
    simp at h

/-! ## Claim theorems -/

/-- C1: for every uploaded file, the web variant's `process_single_pdf`
returns the failed sentinel `(None, None, None)` — after a successful save,
its next statement references `get_file_size_mb`, which is defined nowhere
in the repository, so the `try:` body raises `NameError` and the per-file
handler returns the sentinel; consequently the `/compress` route never
produces an output bundle, and every batch passing the request guards ends
in the batch-empty 500 error. -/
theorem claim_C1 :
    (∀ (env : FileEnv) (f : FileStorage) (level : String) (form : MetadataForm)
       (s : PyState), env.saveOk = true →
       (process_single_pdf_body env f level form s).1 =
         .error (.nameError "get_file_size_mb"))
    ∧ (∀ (env : FileEnv) (f : FileStorage) (level : String) (form : MetadataForm)
       (s : PyState), (process_single_pdf env f level form s).1 = .ok none)
    ∧ (∀ (benv : BatchEnv) (files : List (FileStorage × FileEnv)) (level : String)
       (form : MetadataForm) (s : PyState) (pv : Option Unit) (nm : String)
       (pl : Payload),
       (compress benv files level form s).1 ≠ .ok (.success pv nm pl))
    ∧ (∀ (benv : BatchEnv) (files : List (FileStorage × FileEnv)) (level : String)
       (form : MetadataForm) (s : PyState), files ≠ [] →
       (∀ f0, files.head? = some f0 → f0.1.filename ≠ "") →
       (compress benv files level form s).1 =
         .ok (.err "Aucun fichier PDF valide n'a été traité." 500)) := by
  refine ⟨?_, ?_, ?_, ?_⟩
  · intro env f level form s hs
    simp [process_single_pdf_body, pyBind, saveUpload, hs, fsSet, pyRaise]
  · intro env f level form s
    obtain ⟨m, hm⟩ := run_process_single_pdf env f level form s
    rw [hm]
  · intro benv files level form s pv nm pl
    match files with
    | [] => simp [compress, pyPure]
    | (f0, env0) :: rest =>
      by_cases hname : f0.filename = ""
      · simp [compress, hname, pyPure]
      · obtain ⟨s', h⟩ := run_compress_err benv ((f0, env0) :: rest) level form s
          (by simp) (by rintro f1 hf1; simp at hf1; subst hf1; exact hname)
        rw [h]
        simp
  · intro benv files level form s h1 h2
    obtain ⟨s', h⟩ := run_compress_err benv files level form s h1 h2
    rw [h]

/-- Witness for C1 at a concrete batch of one file. -/
theorem claim_C1_witness :
    (process_single_pdf_body ⟨"u1", true, true, true, "C", true, [], true⟩
      ⟨"a.pdf", "X"⟩ "2" ⟨none, none, none, none, none, none⟩ ⟨[], []⟩).1 =
        .error (.nameError "get_file_size_mb")
    ∧ (compress ⟨true⟩ [(⟨"a.pdf", "X"⟩, ⟨"u1", true, true, true, "C", true, [], true⟩)]
        "2" ⟨none, none, none, none, none, none⟩ ⟨[], []⟩).1 =
        .ok (.err "Aucun fichier PDF valide n'a été traité." 500) :=
  ⟨claim_C1.1 _ _ _ _ _ rfl,
   claim_C1.2.2.2 _ _ _ _ _ (by simp)
     (by rintro f0 hf0; simp at hf0; subst hf0; decide)⟩

/-- C2 counterexample: the cleanup loop (app.py lines 358–363) is sequenced
*after* output assembly, not in a `finally`; if assembly raises — here,
reading the recorded output path fails with `FileNotFoundError` — the
attempted file's input artifact `temp_uploads/u1_a.pdf` is never deleted
and remains in the working directory, contradicting "this cleanup runs even
if output assembly raises". -/
theorem claim_C2_counterexample :
    batch_stage ⟨true⟩
        [("temp_uploads/u1_a.pdf", "temp_uploads/u1_processed_a.pdf", "a.pdf")]
        ⟨[("temp_uploads/u1_a.pdf", "INPUT")], []⟩ =
      (.error (.exception "FileNotFoundError: temp_uploads/u1_processed_a.pdf"),
        ⟨[("temp_uploads/u1_a.pdf", "INPUT")], []⟩) := by
  rfl

/-- C2 amended: the per-file handler deletes the file's input artifact
immediately on failure, and — because every per-file attempt in fact fails
before creating any output artifact — a completed batch leaves the working
directory exactly as it found it; the final cleanup loop, however, runs
only when output assembly completes without raising (counterexample
above). -/
theorem claim_C2_amended :
    (∀ (env : FileEnv) (f : FileStorage) (level : String) (form : MetadataForm)
       (s : PyState),
       (process_single_pdf env f level form s).2.fs =
         fsErase (inputPathOf env f) s.fs)
    ∧ (∀ (benv : BatchEnv) (files : List (FileStorage × FileEnv)) (level : String)
       (form : MetadataForm) (s : PyState),
       (∀ fe ∈ files, pathFree (inputPathOf fe.2 fe.1) s.fs) →
       ((compress benv files level form) s).2.fs = s.fs) := by
  constructor
  · intro env f level form s
    obtain ⟨m, hm⟩ := run_process_single_pdf env f level form s
    rw [hm]
  · exact fun benv files level form s hfree => run_compress_fs benv files level form s hfree

/-- Witness for C2 amended at a concrete batch. -/
theorem claim_C2_amended_witness :
    (process_single_pdf ⟨"u1", true, true, true, "C", true, [], true⟩ ⟨"a.pdf", "X"⟩
      "2" ⟨none, none, none, none, none, none⟩ ⟨[("other", "O")], []⟩).2.fs =
        fsErase "temp_uploads/u1_a.pdf" [("other", "O")]
    ∧ ((compress ⟨true⟩ [(⟨"a.pdf", "X"⟩, ⟨"u1", true, true, true, "C", true, [], true⟩)]
        "2" ⟨none, none, none, none, none, none⟩) ⟨[("other", "O")], []⟩).2.fs =
        [("other", "O")] :=
  ⟨claim_C2_amended.1 _ _ _ _ _,
   claim_C2_amended.2 _ _ _ _ _
     (by rintro fe hfe; simp at hfe; subst hfe
         rintro kv hkv; simp at hkv; subst hkv; decide)⟩

/-- C7: a batch with zero successful files fails with the structured
batch-empty error (`"Aucun fichier PDF valide n'a été traité."`, HTTP 500)
and never reports a partial success; in particular a batch of exactly one
file, whose processing fails, ends in that error. -/
theorem claim_C7 :
    (∀ (benv : BatchEnv) (s : PyState),
       batch_stage benv [] s =
         (.ok (.err "Aucun fichier PDF valide n'a été traité." 500), s))
    ∧ (∀ (benv : BatchEnv) (files : List (FileStorage × FileEnv)) (level : String)
       (form : MetadataForm) (s : PyState), files ≠ [] →
       (∀ f0, files.head? = some f0 → f0.1.filename ≠ "") →
       ∃ s', compress benv files level form s =
         (.ok (.err "Aucun fichier PDF valide n'a été traité." 500), s')) := by
  constructor
  · intro benv s; simp [batch_stage, pyPure]
  · exact fun benv files level form s h1 h2 => run_compress_err benv files level form s h1 h2

/-- Witness for C7 at a one-file batch that fails. -/
theorem claim_C7_witness :
    ∃ s', compress ⟨true⟩ [(⟨"a.pdf", "X"⟩, ⟨"u1", true, true, true, "C", true, [], true⟩)]
        "2" ⟨none, none, none, none, none, none⟩ ⟨[], []⟩ =
      (.ok (.err "Aucun fichier PDF valide n'a été traité." 500), s') :=
  claim_C7.2 _ _ _ _ _ (by simp)
    (by rintro f0 hf0; simp at hf0; subst hf0; decide)

/-- C8: every error in the per-file pipeline is caught at the per-file
boundary — `process_single_pdf` always returns (never raises), logs one
`"Erreur sur <filename>: …"` line naming the originating file, deletes the
file's temporary input artifact immediately, and yields the sentinel so the
file is excluded from the successes; the batch loop then continues: it
still attempts every remaining file (each `.pdf`-named file contributes its
own error line) and collects no successes. -/
theorem claim_C8 :
    (∀ (env : FileEnv) (f : FileStorage) (level : String) (form : MetadataForm)
       (s : PyState), ∃ m : String,
       process_single_pdf env f level form s =
         (.ok none, ⟨fsErase (inputPathOf env f) s.fs,
           s.log ++ ["Erreur sur " ++ f.filename ++ ": " ++ m]⟩) ∧
       fsExistsB (inputPathOf env f)
         (process_single_pdf env f level form s).2.fs = false)
    ∧ (∀ (level : String) (form : MetadataForm) (files : List (FileStorage × FileEnv))
       (s : PyState),
       (∀ fe ∈ files, pathFree (inputPathOf fe.2 fe.1) s.fs) →
       ∃ lg : Log,
         processLoop level form files s = (.ok [], ⟨s.fs, s.log ++ lg⟩) ∧
         (∀ fe ∈ files, fe.1.filename.toLower.endsWith ".pdf" = true →
           ∃ m, ("Erreur sur " ++ fe.1.filename ++ ": " ++ m) ∈ lg)) := by
  constructor
  · intro env f level form s
    obtain ⟨m, hm⟩ := run_process_single_pdf env f level form s
    refine ⟨m, hm, ?_⟩
    rw [hm]
    exact not_fsExistsB_fsErase _ _
  · exact fun level form files s hfree => run_processLoop level form files s hfree

/-- Witness for C8 at a concrete file and batch. -/
theorem claim_C8_witness :
    (∃ m : String,
      process_single_pdf ⟨"u1", true, true, true, "C", true, [], true⟩ ⟨"a.pdf", "X"⟩
          "2" ⟨none, none, none, none, none, none⟩ ⟨[], []⟩ =
        (.ok none, ⟨fsErase "temp_uploads/u1_a.pdf" [],
          [] ++ ["Erreur sur " ++ "a.pdf" ++ ": " ++ m]⟩) ∧
      fsExistsB "temp_uploads/u1_a.pdf"
        (process_single_pdf ⟨"u1", true, true, true, "C", true, [], true⟩ ⟨"a.pdf", "X"⟩
          "2" ⟨none, none, none, none, none, none⟩ ⟨[], []⟩).2.fs = false)
    ∧ (∃ lg : Log,
        processLoop "2" ⟨none, none, none, none, none, none⟩
            [(⟨"a.pdf", "X"⟩, ⟨"u1", true, true, true, "C", true, [], true⟩)] ⟨[], []⟩ =
          (.ok [], ⟨[], [] ++ lg⟩) ∧
        (∀ fe ∈ [((⟨"a.pdf", "X"⟩ : FileStorage),
            (⟨"u1", true, true, true, "C", true, [], true⟩ : FileEnv))],
          fe.1.filename.toLower.endsWith ".pdf" = true →
          ∃ m, ("Erreur sur " ++ fe.1.filename ++ ": " ++ m) ∈ lg)) :=
  ⟨claim_C8.1 _ _ _ _ _,
   claim_C8.2 _ _ _ _
     (by rintro fe hfe; simp at hfe; subst hfe; rintro kv hkv; simp at hkv)⟩

/-- C6: the output aggregation (app.py lines 337–356) branches only on the
list of successful results — the submitted files do not appear in
`batch_stage` at all: zero successes yield the batch-empty error, exactly
one success returns that file's raw bytes tagged with its *original*
filename, and two or more successes return the in-memory archive under the
fixed name `documents_optimises.zip`, every entry keyed by the success's
original filename (third component), never the randomized working name. -/
theorem claim_C6 :
    (∀ (benv : BatchEnv) (s : PyState),
       (batch_stage benv [] s).1 =
         .ok (.err "Aucun fichier PDF valide n'a été traité." 500))
    ∧ (∀ (benv : BatchEnv) (s : PyState) (in_p out_p name c : String),
       fsGet out_p s.fs = some c →
       ∃ fs', batch_stage benv [(in_p, out_p, name)] s =
         (.ok (.success (previewsOf benv [(in_p, out_p, name)]) name (.raw c)),
           ⟨fs', s.log ++ ["Batch terminé"]⟩))
    ∧ (∀ (benv : BatchEnv) (s : PyState) (ps : List Processed), 2 ≤ ps.length →
       (∀ p ∈ ps, (fsGet p.2.1 s.fs).isSome) →
       ∃ (entries : List (String × String)) (fs' : FS),
         batch_stage benv ps s =
           (.ok (.success (previewsOf benv ps) "documents_optimises.zip"
             (.zipArchive entries)), ⟨fs', s.log ++ ["Batch terminé"]⟩) ∧
         entries.map Prod.fst = ps.map (fun p => p.2.2)) := by
  refine ⟨?_, ?_, ?_⟩
  · intro benv s; simp [batch_stage, pyPure]
  · intro benv s in_p out_p name c hc
    exact run_batch_stage_single benv s in_p out_p name c hc
  · intro benv s ps hlen hread
    match ps, hlen with
    | a :: b :: t, _ =>
      obtain ⟨entries, fs', heq, hmap, _⟩ := run_batch_stage_zip benv s a b t hread
      exact ⟨entries, fs', heq, hmap⟩

/-- Witness for C6: one success gives raw bytes, two give the archive. -/
theorem claim_C6_witness :
    (∃ fs', batch_stage ⟨true⟩ [("i1", "o1", "a.pdf")] ⟨[("o1", "A")], []⟩ =
      (.ok (.success (previewsOf ⟨true⟩ [("i1", "o1", "a.pdf")]) "a.pdf" (.raw "A")),
        ⟨fs', [] ++ ["Batch terminé"]⟩))
    ∧ (∃ (entries : List (String × String)) (fs' : FS),
        batch_stage ⟨true⟩ [("i1", "o1", "a.pdf"), ("i2", "o2", "b.pdf")]
            ⟨[("o1", "A"), ("o2", "B")], []⟩ =
          (.ok (.success (previewsOf ⟨true⟩ [("i1", "o1", "a.pdf"), ("i2", "o2", "b.pdf")])
            "documents_optimises.zip" (.zipArchive entries)),
            ⟨fs', [] ++ ["Batch terminé"]⟩) ∧
        entries.map Prod.fst =
          [("i1", "o1", "a.pdf"), ("i2", "o2", "b.pdf")].map
            (fun p : Processed => p.2.2)) :=
  ⟨claim_C6.2.1 _ _ _ _ _ _ (by decide),
   claim_C6.2.2 _ _ _ (by decide)
     (by rintro p hp; simp at hp
         rcases hp with h | h <;> subst h <;> decide)⟩

/-- C5 counterexample: a batch of N = 2 files in which exactly one fails
leaves exactly one success, and the aggregation then returns that file's
raw bytes — not an archive of N − 1 = 1 entries as the claim requires. -/
theorem claim_C5_counterexample :
    (batch_stage ⟨true⟩
        [("temp_uploads/u1_a.pdf", "temp_uploads/u1_processed_a.pdf", "a.pdf")]
        ⟨[("temp_uploads/u1_processed_a.pdf", "OUT")], []⟩).1 =
      .ok (.success (some ()) "a.pdf" (.raw "OUT"))
    ∧ ∀ (pv : Option Unit) (nm : String) (entries : List (String × String)),
      (batch_stage ⟨true⟩
          [("temp_uploads/u1_a.pdf", "temp_uploads/u1_processed_a.pdf", "a.pdf")]
          ⟨[("temp_uploads/u1_processed_a.pdf", "OUT")], []⟩).1 ≠
        .ok (.success pv nm (.zipArchive entries)) := by
  have h1 : (batch_stage ⟨true⟩
      [("temp_uploads/u1_a.pdf", "temp_uploads/u1_processed_a.pdf", "a.pdf")]
      ⟨[("temp_uploads/u1_processed_a.pdf", "OUT")], []⟩).1 =
      .ok (.success (some ()) "a.pdf" (.raw "OUT")) := by rfl
  refine ⟨h1, ?_⟩
  intro pv nm entries h
  rw [h1] at h
  simp at h

/-- C5 amended: when at least two files of the batch succeed (N ≥ 3 when
exactly one of N fails), the output is the archive with one entry per
success (N − 1 of them), each named by its original filename, and no entry
carries the failed file's name; when N = 2 and one file fails, the single
success is returned as raw bytes instead of a one-entry archive. -/
theorem claim_C5_amended :
    ∀ (benv : BatchEnv) (s : PyState) (ps : List Processed) (failedName : String),
      2 ≤ ps.length →
      (∀ p ∈ ps, (fsGet p.2.1 s.fs).isSome) →
      failedName ∉ ps.map (fun p => p.2.2) →
      ∃ (entries : List (String × String)) (fs' : FS),
        batch_stage benv ps s =
          (.ok (.success (previewsOf benv ps) "documents_optimises.zip"
            (.zipArchive entries)), ⟨fs', s.log ++ ["Batch terminé"]⟩) ∧
        entries.map Prod.fst = ps.map (fun p => p.2.2) ∧
        entries.length = ps.length ∧
        failedName ∉ entries.map Prod.fst := by
  intro benv s ps failedName hlen hread hfail
  match ps, hlen with
  | a :: b :: t, _ =>
    obtain ⟨entries, fs', heq, hmap, hl⟩ := run_batch_stage_zip benv s a b t hread
    refine ⟨entries, fs', heq, hmap, hl, ?_⟩
    rw [hmap]
    exact hfail

/-- Witness for C5 amended: N = 3 files, one failed, two succeeded. -/
theorem claim_C5_amended_witness :
    ∃ (entries : List (String × String)) (fs' : FS),
      batch_stage ⟨true⟩ [("i1", "o1", "a.pdf"), ("i2", "o2", "b.pdf")]
          ⟨[("o1", "A"), ("o2", "B")], []⟩ =
        (.ok (.success (previewsOf ⟨true⟩ [("i1", "o1", "a.pdf"), ("i2", "o2", "b.pdf")])
          "documents_optimises.zip" (.zipArchive entries)),
          ⟨fs', [] ++ ["Batch terminé"]⟩) ∧
      entries.map Prod.fst =
        [("i1", "o1", "a.pdf"), ("i2", "o2", "b.pdf")].map (fun p : Processed => p.2.2) ∧
      entries.length = [("i1", "o1", "a.pdf"), ("i2", "o2", "b.pdf")].length ∧
      "failed.pdf" ∉ entries.map Prod.fst :=
  claim_C5_amended _ _ _ _ (by decide)
    (by rintro p hp; simp at hp
        rcases hp with h | h <;> subst h <;> decide)
    (by decide)

/-! ## Metadata merge lemmas -/

theorem empty_isEmpty : ("" : String).isEmpty = true := rfl

theorem isEmpty_false_of_ne {s : String} (h : s ≠ "") : s.isEmpty = false := by
  rw [Bool.eq_false_iff]
  intro hc
  exact h ((String.isEmpty_iff s).1 hc)

theorem truthy_some_of_ne {s : String} (h : s ≠ "") : truthy (some s) = true := by
  simp only [truthy, Bool.not_eq_true']
  exact isEmpty_false_of_ne h

theorem truthy_isEmpty_false {o : Option String} (h : truthy o = true) :
    (strOf o).isEmpty = false := by
  cases o with
  | none => simp [truthy] at h
  | some s =>
    simp only [truthy, Bool.not_eq_true'] at h
    simpa [strOf] using h

/-- Stability of `dictGet` under the CLI's guarded optional date assignment of a
*different* key. -/
theorem dictGet_iteOptSet (c : Prop) [Decidable c] (o : Option String)
    (d : List (String × String)) {k : String} {k' : String} (h : k ≠ k') :
    dictGet (if c then (match o with | some v => dictSet d k v | none => d) else d) k' =
      dictGet d k' := by
  split
  · exact dictGet_optSet o d h
  · rfl

theorem isSome_dictGet_iteOptSet (c : Prop) [Decidable c] (o : Option String)
    (d : List (String × String)) (k : String) (k' : String)
    (h : (dictGet d k').isSome) :
    (dictGet (if c then (match o with | some v => dictSet d k v | none => d) else d)
      k').isSome := by
  split
  · exact isSome_dictGet_optSet o d k k' h
  · exact h

/-- C3 counterexample: with an empty title override, a document whose
metadata already carries `/Title = "Old"`, and upload filename `doc.pdf`,
the merged `/Title` is the filename stem `"doc"` — the existing Title is
*not* kept, contradicting the claim. -/
theorem claim_C3_counterexample :
    dictGet (web_merge_metadata [("/Title", "Old")]
        ⟨none, none, none, none, none, none⟩ "doc.pdf") "/Title" = some "doc"
    ∧ dictGet (web_merge_metadata [("/Title", "Old")]
        ⟨none, none, none, none, none, none⟩ "doc.pdf") "/Title" ≠ some "Old" := by
  constructor
  · rfl
  · decide

/-- C3 amended: the merged `/Title` equals the override when the override is
non-empty; otherwise it equals the filename stem whenever that stem is
non-empty — *overwriting* any existing document Title; the existing Title
survives only when the override is absent/empty *and* the stem is empty. -/
theorem claim_C3_amended :
    ∀ (readerMeta : List (String × String)) (form : MetadataForm) (filename : String),
      (readerMeta.map Prod.fst).Nodup →
      dictGet (web_merge_metadata readerMeta form filename) "/Title" =
        (if truthy form.title then some (strOf form.title)
         else if splitextStem filename ≠ "" then some (splitextStem filename)
         else dictGet readerMeta "/Title") := by
  intro rm form fn hnd
  simp only [web_merge_metadata]
  rw [dictGet_optSet _ _ (by decide : "/ModDate" ≠ "/Title")]
  rw [dictGet_optSet _ _ (by decide : "/CreationDate" ≠ "/Title")]
  rw [dictGet_iteSet _ _ _ (by decide : "/Subject" ≠ "/Title")]
  rw [dictGet_iteSet _ _ _ (by decide : "/Author" ≠ "/Title")]
  by_cases ht : truthy form.title = true
  · have hne := truthy_isEmpty_false ht
    simp only [webFinalTitle, ht, if_true, hne, Bool.not_false, if_pos trivial]
    rw [dictGet_dictSet_self]
  · replace ht : truthy form.title = false := by
      cases h : truthy form.title
      · rfl
      · exact absurd h ht
    simp only [webFinalTitle, ht, Bool.false_eq_true, if_false]
    by_cases hstem : splitextStem fn = ""
    · rw [hstem]
      simp only [empty_isEmpty, Bool.not_true, Bool.false_eq_true, if_false]
      rw [dictGet_dictCopy hnd]
      simp [ht, hstem]
    · have hne : (splitextStem fn).isEmpty = false := by
        rw [Bool.eq_false_iff]
        intro hc
        exact hstem ((String.isEmpty_iff _).1 hc)
      simp only [hne, Bool.not_false, if_pos trivial]
      rw [dictGet_dictSet_self]
      simp [ht, hstem]

/-- Witness for C3 amended at concrete inputs (override present). -/
theorem claim_C3_amended_witness :
    dictGet (web_merge_metadata [("/Title", "Old")]
        ⟨none, some "New", none, none, none, none⟩ "doc.pdf") "/Title" =
      (if truthy (some "New") then some (strOf (some "New"))
       else if splitextStem "doc.pdf" ≠ "" then some (splitextStem "doc.pdf")
       else dictGet [("/Title", "Old")] "/Title") :=
  claim_C3_amended [("/Title", "Old")] ⟨none, some "New", none, none, none, none⟩
    "doc.pdf" (by decide)

/-- C10: in both merge variants, every existing metadata key survives the
merge (no override ever removes a value), and `/Author`, `/Subject`,
`/CreationDate`, `/ModDate` are overwritten only by a supplied non-empty
override — dates only when the normalizer yields a value — and otherwise
keep their existing values; in the CLI variant the same holds for
`/Title`. -/
theorem claim_C10 :
    (∀ (rm : List (String × String)) (form : MetadataForm) (fn : String),
      (rm.map Prod.fst).Nodup →
      (∀ k, (dictGet rm k).isSome →
        (dictGet (web_merge_metadata rm form fn) k).isSome)
      ∧ (truthy form.author = false →
          dictGet (web_merge_metadata rm form fn) "/Author" = dictGet rm "/Author")
      ∧ (truthy form.author = true →
          dictGet (web_merge_metadata rm form fn) "/Author" = some (strOf form.author))
      ∧ (truthy form.subject = false →
          dictGet (web_merge_metadata rm form fn) "/Subject" = dictGet rm "/Subject")
      ∧ (truthy form.subject = true →
          dictGet (web_merge_metadata rm form fn) "/Subject" = some (strOf form.subject))
      ∧ (format_date_for_pdf_web form.created_date = none →
          dictGet (web_merge_metadata rm form fn) "/CreationDate" =
            dictGet rm "/CreationDate")
      ∧ (∀ dv, format_date_for_pdf_web form.created_date = some dv →
          dictGet (web_merge_metadata rm form fn) "/CreationDate" = some dv)
      ∧ (format_date_for_pdf_web form.modified_date = none →
          dictGet (web_merge_metadata rm form fn) "/ModDate" = dictGet rm "/ModDate")
      ∧ (∀ dv, format_date_for_pdf_web form.modified_date = some dv →
          dictGet (web_merge_metadata rm form fn) "/ModDate" = some dv))
    ∧ (∀ (rm : List (String × String)) (args : CliArgs),
      (rm.map Prod.fst).Nodup →
      (∀ k, (dictGet rm k).isSome →
        (dictGet (cli_merge_metadata rm args) k).isSome)
      ∧ (truthy args.title = false →
          dictGet (cli_merge_metadata rm args) "/Title" = dictGet rm "/Title")
      ∧ (truthy args.title = true →
          dictGet (cli_merge_metadata rm args) "/Title" = some (strOf args.title))
      ∧ (truthy args.author = false →
          dictGet (cli_merge_metadata rm args) "/Author" = dictGet rm "/Author")
      ∧ (truthy args.author = true →
          dictGet (cli_merge_metadata rm args) "/Author" = some (strOf args.author))
      ∧ (truthy args.subject = false →
          dictGet (cli_merge_metadata rm args) "/Subject" = dictGet rm "/Subject")
      ∧ (truthy args.subject = true →
          dictGet (cli_merge_metadata rm args) "/Subject" = some (strOf args.subject))
      ∧ (truthy args.created = false →
          dictGet (cli_merge_metadata rm args) "/CreationDate" =
            dictGet rm "/CreationDate")
      ∧ (∀ dv, format_date_for_pdf_cli args.created = some dv →
          dictGet (cli_merge_metadata rm args) "/CreationDate" = some dv)
      ∧ (truthy args.modified = false →
          dictGet (cli_merge_metadata rm args) "/ModDate" = dictGet rm "/ModDate")
      ∧ (∀ dv, format_date_for_pdf_cli args.modified = some dv →
          dictGet (cli_merge_metadata rm args) "/ModDate" = some dv)) := by
  constructor
  · intro rm form fn hnd
    refine ⟨?_, ?_, ?_, ?_, ?_, ?_, ?_, ?_, ?_⟩
    · intro k hk
      simp only [web_merge_metadata]
      apply isSome_dictGet_optSet
      apply isSome_dictGet_optSet
      apply isSome_dictGet_iteSet
      apply isSome_dictGet_iteSet
      apply isSome_dictGet_iteSet
      exact isSome_dictGet_dictCopy hk
    · intro h
      simp only [web_merge_metadata]
      rw [dictGet_optSet _ _ (by decide : "/ModDate" ≠ "/Author")]
      rw [dictGet_optSet _ _ (by decide : "/CreationDate" ≠ "/Author")]
      rw [dictGet_iteSet _ _ _ (by decide : "/Subject" ≠ "/Author")]
      simp only [h, Bool.false_eq_true, if_false]
      rw [dictGet_iteSet _ _ _ (by decide : "/Title" ≠ "/Author")]
      exact dictGet_dictCopy hnd _
    · intro h
      simp only [web_merge_metadata]
      rw [dictGet_optSet _ _ (by decide : "/ModDate" ≠ "/Author")]
      rw [dictGet_optSet _ _ (by decide : "/CreationDate" ≠ "/Author")]
      rw [dictGet_iteSet _ _ _ (by decide : "/Subject" ≠ "/Author")]
      simp only [h, if_true]
      exact dictGet_dictSet_self _ _ _
    · intro h
      simp only [web_merge_metadata]
      rw [dictGet_optSet _ _ (by decide : "/ModDate" ≠ "/Subject")]
      rw [dictGet_optSet _ _ (by decide : "/CreationDate" ≠ "/Subject")]
      simp only [h, Bool.false_eq_true, if_false]
      rw [dictGet_iteSet _ _ _ (by decide : "/Author" ≠ "/Subject")]
      rw [dictGet_iteSet _ _ _ (by decide : "/Title" ≠ "/Subject")]
      exact dictGet_dictCopy hnd _
    · intro h
      simp only [web_merge_metadata]
      rw [dictGet_optSet _ _ (by decide : "/ModDate" ≠ "/Subject")]
      rw [dictGet_optSet _ _ (by decide : "/CreationDate" ≠ "/Subject")]
      simp only [h, if_true]
      exact dictGet_dictSet_self _ _ _
    · intro h
      simp only [web_merge_metadata]
      rw [dictGet_optSet _ _ (by decide : "/ModDate" ≠ "/CreationDate")]
      simp only [h]
      rw [dictGet_iteSet _ _ _ (by decide : "/Subject" ≠ "/CreationDate")]
      rw [dictGet_iteSet _ _ _ (by decide : "/Author" ≠ "/CreationDate")]
      rw [dictGet_iteSet _ _ _ (by decide : "/Title" ≠ "/CreationDate")]
      exact dictGet_dictCopy hnd _
    · intro dv h
      simp only [web_merge_metadata]
      rw [dictGet_optSet _ _ (by decide : "/ModDate" ≠ "/CreationDate")]
      simp only [h]
      exact dictGet_dictSet_self _ _ _
    · intro h
      simp only [web_merge_metadata, h]
      rw [dictGet_optSet _ _ (by decide : "/CreationDate" ≠ "/ModDate")]
      rw [dictGet_iteSet _ _ _ (by decide : "/Subject" ≠ "/ModDate")]
      rw [dictGet_iteSet _ _ _ (by decide : "/Author" ≠ "/ModDate")]
      rw [dictGet_iteSet _ _ _ (by decide : "/Title" ≠ "/ModDate")]
      exact dictGet_dictCopy hnd _
    · intro dv h
      simp only [web_merge_metadata, h]
      exact dictGet_dictSet_self _ _ _
  · intro rm args hnd
    refine ⟨?_, ?_, ?_, ?_, ?_, ?_, ?_, ?_, ?_, ?_, ?_⟩
    · intro k hk
      simp only [cli_merge_metadata]
      apply isSome_dictGet_iteOptSet
      apply isSome_dictGet_iteOptSet
      apply isSome_dictGet_iteSet
      apply isSome_dictGet_iteSet
      apply isSome_dictGet_iteSet
      exact isSome_dictGet_dictCopy hk
    · intro h
      simp only [cli_merge_metadata]
      rw [dictGet_iteOptSet _ _ _ (by decide : "/ModDate" ≠ "/Title")]
      rw [dictGet_iteOptSet _ _ _ (by decide : "/CreationDate" ≠ "/Title")]
      rw [dictGet_iteSet _ _ _ (by decide : "/Subject" ≠ "/Title")]
      rw [dictGet_iteSet _ _ _ (by decide : "/Author" ≠ "/Title")]
      simp only [h, Bool.false_eq_true, if_false]
      exact dictGet_dictCopy hnd _
    · intro h
      simp only [cli_merge_metadata]
      rw [dictGet_iteOptSet _ _ _ (by decide : "/ModDate" ≠ "/Title")]
      rw [dictGet_iteOptSet _ _ _ (by decide : "/CreationDate" ≠ "/Title")]
      rw [dictGet_iteSet _ _ _ (by decide : "/Subject" ≠ "/Title")]
      rw [dictGet_iteSet _ _ _ (by decide : "/Author" ≠ "/Title")]
      simp only [h, if_true]
      exact dictGet_dictSet_self _ _ _
    · intro h
      simp only [cli_merge_metadata]
      rw [dictGet_iteOptSet _ _ _ (by decide : "/ModDate" ≠ "/Author")]
      rw [dictGet_iteOptSet _ _ _ (by decide : "/CreationDate" ≠ "/Author")]
      rw [dictGet_iteSet _ _ _ (by decide : "/Subject" ≠ "/Author")]
      simp only [h, Bool.false_eq_true, if_false]
      rw [dictGet_iteSet _ _ _ (by decide : "/Title" ≠ "/Author")]
      exact dictGet_dictCopy hnd _
    · intro h
      simp only [cli_merge_metadata]
      rw [dictGet_iteOptSet _ _ _ (by decide : "/ModDate" ≠ "/Author")]
      rw [dictGet_iteOptSet _ _ _ (by decide : "/CreationDate" ≠ "/Author")]
      rw [dictGet_iteSet _ _ _ (by decide : "/Subject" ≠ "/Author")]
      simp only [h, if_true]
      exact dictGet_dictSet_self _ _ _
    · intro h
      simp only [cli_merge_metadata]
      rw [dictGet_iteOptSet _ _ _ (by decide : "/ModDate" ≠ "/Subject")]
      rw [dictGet_iteOptSet _ _ _ (by decide : "/CreationDate" ≠ "/Subject")]
      simp only [h, Bool.false_eq_true, if_false]
      rw [dictGet_iteSet _ _ _ (by decide : "/Author" ≠ "/Subject")]
      rw [dictGet_iteSet _ _ _ (by decide : "/Title" ≠ "/Subject")]
      exact dictGet_dictCopy hnd _
    · intro h
      simp only [cli_merge_metadata]
      rw [dictGet_iteOptSet _ _ _ (by decide : "/ModDate" ≠ "/Subject")]
      rw [dictGet_iteOptSet _ _ _ (by decide : "/CreationDate" ≠ "/Subject")]
      simp only [h, if_true]
      exact dictGet_dictSet_self _ _ _
    · intro h
      simp only [cli_merge_metadata]
      rw [dictGet_iteOptSet _ _ _ (by decide : "/ModDate" ≠ "/CreationDate")]
      simp only [h, Bool.false_eq_true, if_false]
      rw [dictGet_iteSet _ _ _ (by decide : "/Subject" ≠ "/CreationDate")]
      rw [dictGet_iteSet _ _ _ (by decide : "/Author" ≠ "/CreationDate")]
      rw [dictGet_iteSet _ _ _ (by decide : "/Title" ≠ "/CreationDate")]
      exact dictGet_dictCopy hnd _
    · intro dv h
      have ht : truthy args.created = true := by
        cases hc : args.created with
        | none => rw [hc] at h; simp [format_date_for_pdf_cli] at h
        | some sc =>
          by_cases he : sc = ""
          · rw [hc, he] at h
            simp [format_date_for_pdf_cli, empty_isEmpty] at h
          · exact truthy_some_of_ne he
      simp only [cli_merge_metadata]
      rw [dictGet_iteOptSet _ _ _ (by decide : "/ModDate" ≠ "/CreationDate")]
      simp only [ht, if_true, h]
      exact dictGet_dictSet_self _ _ _
    · intro h
      simp only [cli_merge_metadata, h, Bool.false_eq_true, if_false]
      rw [dictGet_iteOptSet _ _ _ (by decide : "/CreationDate" ≠ "/ModDate")]
      rw [dictGet_iteSet _ _ _ (by decide : "/Subject" ≠ "/ModDate")]
      rw [dictGet_iteSet _ _ _ (by decide : "/Author" ≠ "/ModDate")]
      rw [dictGet_iteSet _ _ _ (by decide : "/Title" ≠ "/ModDate")]
      exact dictGet_dictCopy hnd _
    · intro dv h
      have ht : truthy args.modified = true := by
        cases hc : args.modified with
        | none => rw [hc] at h; simp [format_date_for_pdf_cli] at h
        | some sc =>
          by_cases he : sc = ""
          · rw [hc, he] at h
            simp [format_date_for_pdf_cli, empty_isEmpty] at h
          · exact truthy_some_of_ne he
      simp only [cli_merge_metadata, ht, if_true, h]
      exact dictGet_dictSet_self _ _ _

/-- Witness for C10 at concrete inputs. -/
theorem claim_C10_witness :
    (dictGet (web_merge_metadata [("/Author", "A0")]
        ⟨some "", none, none, none, none, none⟩ "doc.pdf") "/Author" =
      dictGet [("/Author", "A0")] "/Author")
    ∧ (dictGet (cli_merge_metadata [("/Title", "T0")]
        ⟨none, none, none, none, none⟩) "/Title" = dictGet [("/Title", "T0")] "/Title") :=
  ⟨((claim_C10.1 [("/Author", "A0")] ⟨some "", none, none, none, none, none⟩
      "doc.pdf" (by decide)).2.1) (by decide),
   ((claim_C10.2 [("/Title", "T0")] ⟨none, none, none, none, none⟩
      (by decide)).2.1) (by decide)⟩

/-! ## The CLI metadata-failure path -/

theorem fsExistsB_of_fsGet {p : String} {fs : FS} {c : String}
    (h : fsGet p fs = some c) : fsExistsB p fs = true := by
  induction fs with
  | nil => simp [fsGet] at h
  | cons kv rest ih =>
    rw [fsGet_cons] at h
    rw [fsExistsB, List.any_cons]
    by_cases hk : kv.1 = p
    · simp [hk]
    · simp only [hk, if_false] at h
      simp only [hk, decide_False, Bool.false_or]
      exact ih h

theorem ne_append_metaTmp (p : String) : p ≠ p ++ ".meta.tmp" := by
  intro h
  have hl := congrArg String.length h
  rw [String.length_append] at hl
  have : (".meta.tmp" : String).length = 9 := rfl
  omega

/-- C9: in the CLI variant, a metadata-rewrite failure (here: `PdfReader`
fails to parse, or `writer.write` fails) is caught inside `add_metadata`:
the run still completes normally (`--- Terminé ---` is printed and the
output path is reported), the compressed output file is delivered with its
Ghostscript bytes intact (the metadata was simply not rewritten), the
`.meta.tmp` artifact is absent afterwards, and the warning line is
printed. -/
theorem claim_C9 :
    ∀ (env : CliEnv) (input : String) (args : CliArgs) (s : PyState) (c : String),
      fsGet input s.fs = some c →
      env.gsFound = true → env.gsOk = true →
      anyMetadataArg args = true →
      (env.readerOk = false ∨ env.writeOk = false) →
      ∃ s' : PyState,
        compress_pdf_cli env input args s =
          (.ok (.done (splitextStem input ++ "_compressed" ++ splitextExt input)), s') ∧
        fsGet (splitextStem input ++ "_compressed" ++ splitextExt input) s'.fs =
          some env.compressedContent ∧
        fsExistsB (splitextStem input ++ "_compressed" ++ splitextExt input ++
          ".meta.tmp") s'.fs = false ∧
        (∃ m, ("Attention : Impossible d'ajouter les métadonnées : " ++ m) ∈ s'.log) ∧
        "--- Terminé ---" ∈ s'.log := by
  intro env input args s c hc hgs hok hany hfail
  have hex : fsExistsB input s.fs = true := fsExistsB_of_fsGet hc
  set out := splitextStem input ++ "_compressed" ++ splitextExt input with hout
  have hne : out ≠ out ++ ".meta.tmp" := ne_append_metaTmp out
  have hmsg : ∀ m : String,
      compress_pdf_cli env input args s =
        (.ok (.done out),
          ⟨fsErase (out ++ ".meta.tmp") ((out, env.compressedContent) :: fsErase out s.fs),
            s.log ++ ["--- Compression de '" ++ input ++ "' ---",
              "Attention : Impossible d'ajouter les métadonnées : " ++ m,
              "--- Terminé ---", "Fichier : " ++ out]⟩) →
      ∃ s' : PyState,
        compress_pdf_cli env input args s = (.ok (.done out), s') ∧
        fsGet out s'.fs = some env.compressedContent ∧
        fsExistsB (out ++ ".meta.tmp") s'.fs = false ∧
        (∃ m', ("Attention : Impossible d'ajouter les métadonnées : " ++ m') ∈ s'.log) ∧
        "--- Terminé ---" ∈ s'.log := by
    intro m heq
    refine ⟨_, heq, ?_, ?_, ⟨m, by simp⟩, by simp⟩
    · rw [fsGet_fsErase_ne _ hne, fsGet_cons_self]
    · exact not_fsExistsB_fsErase _ _
  cases hro : env.readerOk with
  | false =>
    apply hmsg "PdfReadError"
    rw [compress_pdf_cli]
    simp only [pyBind, hex, Bool.not_true, Bool.false_eq_true, if_false, hgs,
      Bool.not_false, pyLog, pyTryOn, hok, if_true, fsSet, add_metadata, hany,
      pyTry, fsRead, fsGet_cons_self, hro, pyRaise, fsRemoveIfExists, pyPure,
      PyErr.msg]
    simp [← hout, List.append_assoc]
  | true =>
    have hwo : env.writeOk = false := by
      rcases hfail with h | h
      · rw [hro] at h; exact absurd h (by simp)
      · exact h
    apply hmsg "write failed"
    rw [compress_pdf_cli]
    simp only [pyBind, hex, Bool.not_true, Bool.false_eq_true, if_false, hgs,
      Bool.not_false, pyLog, pyTryOn, hok, if_true, fsSet, add_metadata, hany,
      pyTry, fsRead, fsGet_cons_self, hro, hwo, pyRaise, pyPure,
      fsRemoveIfExists, PyErr.msg]
    simp [← hout, List.append_assoc]

/-- Witness for C9 at a concrete run. -/
theorem claim_C9_witness :
    ∃ s' : PyState,
      compress_pdf_cli ⟨true, true, "CC", false, [], true⟩ "in.pdf"
          ⟨some "T", none, none, none, none⟩ ⟨[("in.pdf", "I")], []⟩ =
        (.ok (.done (splitextStem "in.pdf" ++ "_compressed" ++ splitextExt "in.pdf")), s') ∧
      fsGet (splitextStem "in.pdf" ++ "_compressed" ++ splitextExt "in.pdf") s'.fs =
        some ("CC" : String) ∧
      fsExistsB (splitextStem "in.pdf" ++ "_compressed" ++ splitextExt "in.pdf" ++
        ".meta.tmp") s'.fs = false ∧
      (∃ m, ("Attention : Impossible d'ajouter les métadonnées : " ++ m) ∈ s'.log) ∧
      "--- Terminé ---" ∈ s'.log :=
  claim_C9 ⟨true, true, "CC", false, [], true⟩ "in.pdf" ⟨some "T", none, none, none, none⟩
    ⟨[("in.pdf", "I")], []⟩ "I" (by decide) rfl rfl (by decide) (Or.inl rfl)

/-! ## Date normalizer round-trips

`renderDate`/`renderDateTime`/`renderDateTimeSec` build the canonical
zero-padded date strings of the claim's format families; they are witness
infrastructure (inputs to the normalizers), not part of the source model. -/

theorem isDigit_digitChar {k : Nat} (h : k ≤ 9) : (Nat.digitChar k).isDigit = true := by
  interval_cases k <;> decide

theorem digitVal_digitChar {k : Nat} (h : k ≤ 9) : digitVal (Nat.digitChar k) = k := by
  interval_cases k <;> decide

theorem digitChar_ne {k : Nat} (c : Char) (h : k ≤ 9) (hc : c.isDigit = false) :
    Nat.digitChar k ≠ c := by
  intro he
  rw [← he] at hc
  rw [isDigit_digitChar h] at hc
  simp at hc

theorem mem_pad2_isDigit (n : Nat) : ∀ c ∈ (pad2 n).data, c.isDigit = true := by
  intro c hc
  have hd : (pad2 n).data = [Nat.digitChar (n / 10 % 10), Nat.digitChar (n % 10)] := rfl
  rw [hd] at hc
  simp only [List.mem_cons, List.not_mem_nil, or_false] at hc
  rcases hc with hc | hc <;> (rw [hc]; exact isDigit_digitChar (by omega))

theorem mem_pad4_isDigit (n : Nat) : ∀ c ∈ (pad4 n).data, c.isDigit = true := by
  intro c hc
  have hd : (pad4 n).data = [Nat.digitChar (n / 1000 % 10), Nat.digitChar (n / 100 % 10),
      Nat.digitChar (n / 10 % 10), Nat.digitChar (n % 10)] := rfl
  rw [hd] at hc
  simp only [List.mem_cons, List.not_mem_nil, or_false] at hc
  rcases hc with hc | hc | hc | hc <;> (rw [hc]; exact isDigit_digitChar (by omega))

theorem mem_pad2_ne_T (n : Nat) : ∀ c ∈ (pad2 n).data, c ≠ 'T' := by
  intro c hc he
  have := mem_pad2_isDigit n c hc
  rw [he] at this
  exact Bool.false_ne_true ((by decide : ('T').isDigit = false) ▸ this)

theorem mem_pad4_ne_T (n : Nat) : ∀ c ∈ (pad4 n).data, c ≠ 'T' := by
  intro c hc he
  have := mem_pad4_isDigit n c hc
  rw [he] at this
  exact Bool.false_ne_true ((by decide : ('T').isDigit = false) ▸ this)

theorem takeWhile_digits_append (ds rest : List Char)
    (hds : ∀ c ∈ ds, c.isDigit = true) (hrest : headNotDigit rest) :
    (ds ++ rest).takeWhile Char.isDigit = ds := by
  induction ds with
  | nil =>
    cases rest with
    | nil => rfl
    | cons c t =>
      simp only [headNotDigit] at hrest
      simp [List.takeWhile_cons, hrest]
  | cons d ds ih =>
    have hd := hds d (by simp)
    simp only [List.cons_append, List.takeWhile_cons, hd, if_true]
    rw [ih (fun c hc => hds c (by simp [hc]))]

theorem dropWhile_digits_append (ds rest : List Char)
    (hds : ∀ c ∈ ds, c.isDigit = true) (hrest : headNotDigit rest) :
    (ds ++ rest).dropWhile Char.isDigit = rest := by
  induction ds with
  | nil =>
    cases rest with
    | nil => rfl
    | cons c t =>
      simp only [headNotDigit] at hrest
      simp [List.dropWhile_cons, hrest]
  | cons d ds ih =>
    have hd := hds d (by simp)
    simp only [List.cons_append, List.dropWhile_cons, hd, if_true]
    rw [ih (fun c hc => hds c (by simp [hc]))]

theorem splitRun_append (ds rest : List Char)
    (hds : ∀ c ∈ ds, c.isDigit = true) (hrest : headNotDigit rest) :
    splitRun (ds ++ rest) = (ds, rest) := by
  rw [splitRun, takeWhile_digits_append ds rest hds hrest,
    dropWhile_digits_append ds rest hds hrest]

theorem runVal_pad2 {n : Nat} (h : n ≤ 99) : runVal (pad2 n).data = n := by
  have h1 : n / 10 % 10 ≤ 9 := by omega
  have h2 : n % 10 ≤ 9 := by omega
  simp only [pad2, runVal, List.foldl_cons, List.foldl_nil]
  rw [digitVal_digitChar h1, digitVal_digitChar h2]
  omega

theorem runVal_pad4 {n : Nat} (h : n ≤ 9999) : runVal (pad4 n).data = n := by
  have h1 : n / 1000 % 10 ≤ 9 := by omega
  have h2 : n / 100 % 10 ≤ 9 := by omega
  have h3 : n / 10 % 10 ≤ 9 := by omega
  have h4 : n % 10 ≤ 9 := by omega
  simp only [pad4, runVal, List.foldl_cons, List.foldl_nil]
  rw [digitVal_digitChar h1, digitVal_digitChar h2, digitVal_digitChar h3,
    digitVal_digitChar h4]
  omega

theorem monthRunOk_pad2 {m : Nat} (h1 : 1 ≤ m) (h2 : m ≤ 12) :
    monthRunOk (pad2 m).data = true := by
  have hv := runVal_pad2 (show m ≤ 99 by omega)
  have hlen : (pad2 m).data.length = 2 := rfl
  simp [monthRunOk, hv, hlen, h1, h2]

theorem dayRunOk_pad2 {d : Nat} (h1 : 1 ≤ d) (h2 : d ≤ 31) :
    dayRunOk (pad2 d).data = true := by
  have hv := runVal_pad2 (show d ≤ 99 by omega)
  have hlen : (pad2 d).data.length = 2 := rfl
  simp [dayRunOk, hv, hlen, h1, h2]

theorem hourRunOk_pad2 {h : Nat} (h1 : h ≤ 23) :
    hourRunOk (pad2 h).data = true := by
  have hv := runVal_pad2 (show h ≤ 99 by omega)
  have hlen : (pad2 h).data.length = 2 := rfl
  simp [hourRunOk, hv, hlen, h1]

theorem minuteRunOk_pad2 {mi : Nat} (h1 : mi ≤ 59) :
    minuteRunOk (pad2 mi).data = true := by
  have hv := runVal_pad2 (show mi ≤ 99 by omega)
  have hlen : (pad2 mi).data.length = 2 := rfl
  simp [minuteRunOk, hv, hlen, h1]

theorem secondRunOk_pad2 {sec : Nat} (h1 : sec ≤ 61) :
    secondRunOk (pad2 sec).data = true := by
  have hv := runVal_pad2 (show sec ≤ 99 by omega)
  have hlen : (pad2 sec).data.length = 2 := rfl
  simp [secondRunOk, hv, hlen, h1]

theorem daysInMonth_le (y m : Nat) : daysInMonth y m ≤ 31 := by
  rw [daysInMonth]
  split_ifs <;> omega

theorem dtValid_true {y m d h mi sec : Nat} (hy1 : 1 ≤ y) (hy : y ≤ 9999)
    (hm1 : 1 ≤ m) (hm2 : m ≤ 12) (hd1 : 1 ≤ d) (hdm : d ≤ daysInMonth y m)
    (hh : h ≤ 23) (hmi : mi ≤ 59) (hsec : sec ≤ 59) :
    dtValid y m d h mi sec = true := by
  simp only [dtValid, Bool.and_eq_true, decide_eq_true_eq]
  omega

theorem parseYmd_render (y m d : Nat) (rest : List Char)
    (hy : y ≤ 9999) (hm1 : 1 ≤ m) (hm2 : m ≤ 12) (hd1 : 1 ≤ d) (hd2 : d ≤ 31)
    (hrest : headNotDigit rest) :
    parseYmd ((renderDate y m d).data ++ rest) = some (y, m, d, rest) := by
  have hassoc : (renderDate y m d).data ++ rest =
      (pad4 y).data ++ '-' :: ((pad2 m).data ++ '-' :: ((pad2 d).data ++ rest)) := by
    simp [renderDate]
  rw [hassoc, parseYmd]
  rw [splitRun_append _ _ (mem_pad4_isDigit y) (by simp [headNotDigit])]
  simp only [show ((pad4 y).data.length = 4) from rfl, if_true]
  rw [splitRun_append _ _ (mem_pad2_isDigit m) (by simp [headNotDigit])]
  simp only [monthRunOk_pad2 hm1 hm2, if_true]
  rw [splitRun_append _ _ (mem_pad2_isDigit d) hrest]
  simp only [dayRunOk_pad2 hd1 hd2, if_true]
  rw [runVal_pad4 hy, runVal_pad2 (show m ≤ 99 by omega),
    runVal_pad2 (show d ≤ 99 by omega)]

theorem parseTime_HM (h mi : Nat) (hh : h ≤ 23) (hmi : mi ≤ 59) :
    parseTime false ((pad2 h).data ++ ':' :: (pad2 mi).data) = some (h, mi, 0) := by
  rw [parseTime]
  rw [splitRun_append _ _ (mem_pad2_isDigit h) (by simp [headNotDigit])]
  simp only [hourRunOk_pad2 hh, if_true]
  rw [show (pad2 mi).data = (pad2 mi).data ++ ([] : List Char) by simp]
  rw [splitRun_append _ _ (mem_pad2_isDigit mi) (by simp [headNotDigit])]
  simp only [minuteRunOk_pad2 hmi, if_true, Bool.false_eq_true, if_false,
    List.isEmpty_nil, if_true]
  rw [runVal_pad2 (show h ≤ 99 by omega), runVal_pad2 (show mi ≤ 99 by omega)]

theorem parseTime_HM_rejects_sec (h mi sec : Nat) (hh : h ≤ 23) (hmi : mi ≤ 59) :
    parseTime false ((pad2 h).data ++ ':' ::
      ((pad2 mi).data ++ ':' :: (pad2 sec).data)) = none := by
  rw [parseTime]
  rw [splitRun_append _ _ (mem_pad2_isDigit h) (by simp [headNotDigit])]
  simp only [hourRunOk_pad2 hh, if_true]
  rw [splitRun_append _ _ (mem_pad2_isDigit mi) (by simp [headNotDigit])]
  simp only [minuteRunOk_pad2 hmi, if_true, Bool.false_eq_true, if_false,
    List.isEmpty_cons]

theorem parseTime_HMS (h mi sec : Nat) (hh : h ≤ 23) (hmi : mi ≤ 59)
    (hsec : sec ≤ 61) :
    parseTime true ((pad2 h).data ++ ':' ::
      ((pad2 mi).data ++ ':' :: (pad2 sec).data)) = some (h, mi, sec) := by
  rw [parseTime]
  rw [splitRun_append _ _ (mem_pad2_isDigit h) (by simp [headNotDigit])]
  simp only [hourRunOk_pad2 hh, if_true]
  rw [splitRun_append _ _ (mem_pad2_isDigit mi) (by simp [headNotDigit])]
  simp only [minuteRunOk_pad2 hmi, if_true]
  rw [show (pad2 sec).data = (pad2 sec).data ++ ([] : List Char) by simp]
  rw [splitRun_append _ _ (mem_pad2_isDigit sec) (by simp [headNotDigit])]
  simp only [secondRunOk_pad2 hsec, List.isEmpty_nil, Bool.and_true, if_true]
  rw [runVal_pad2 (show h ≤ 99 by omega), runVal_pad2 (show mi ≤ 99 by omega),
    runVal_pad2 (show sec ≤ 99 by omega)]

theorem parseTime_HMS_rejects_noSec (h mi : Nat) (hh : h ≤ 23) (hmi : mi ≤ 59) :
    parseTime true ((pad2 h).data ++ ':' :: (pad2 mi).data) = none := by
  rw [parseTime]
  rw [splitRun_append _ _ (mem_pad2_isDigit h) (by simp [headNotDigit])]
  simp only [hourRunOk_pad2 hh, if_true]
  rw [show (pad2 mi).data = (pad2 mi).data ++ ([] : List Char) by simp]
  rw [splitRun_append _ _ (mem_pad2_isDigit mi) (by simp [headNotDigit])]
  simp only [minuteRunOk_pad2 hmi, if_true]

theorem strptimeDate_render (y m d : Nat) (hy1 : 1 ≤ y) (hy : y ≤ 9999)
    (hm1 : 1 ≤ m) (hm2 : m ≤ 12) (hd1 : 1 ≤ d) (hdm : d ≤ daysInMonth y m) :
    strptimeDate (renderDate y m d) = some (y, m, d) := by
  have hd31 : d ≤ 31 := le_trans hdm (daysInMonth_le y m)
  have hp := parseYmd_render y m d [] hy hm1 hm2 hd1 hd31 trivial
  rw [List.append_nil] at hp
  rw [strptimeDate, hp]
  simp only [@dtValid_true y m d 0 0 0 hy1 hy hm1 hm2 hd1 hdm (by omega) (by omega)
    (by omega), if_true]

theorem strptimeDate_rejects_cons (y m d : Nat) (c : Char) (t : List Char)
    (hy : y ≤ 9999) (hm1 : 1 ≤ m) (hm2 : m ≤ 12) (hd1 : 1 ≤ d) (hd2 : d ≤ 31)
    (hc : c.isDigit = false) :
    strptimeDate ⟨(renderDate y m d).data ++ c :: t⟩ = none := by
  have hp := parseYmd_render y m d (c :: t) hy hm1 hm2 hd1 hd2 hc
  rw [strptimeDate]
  simp only [hp]

theorem strptimeDateHM_render (y m d h mi : Nat) (hy1 : 1 ≤ y) (hy : y ≤ 9999)
    (hm1 : 1 ≤ m) (hm2 : m ≤ 12) (hd1 : 1 ≤ d) (hdm : d ≤ daysInMonth y m)
    (hh : h ≤ 23) (hmi : mi ≤ 59) :
    strptimeDateHM (renderDateTime ' ' y m d h mi) = some (y, m, d, h, mi) := by
  have hd31 : d ≤ 31 := le_trans hdm (daysInMonth_le y m)
  have hdata : (renderDateTime ' ' y m d h mi).data =
      (renderDate y m d).data ++ ' ' :: ((pad2 h).data ++ ':' :: (pad2 mi).data) := rfl
  rw [strptimeDateHM, hdata]
  rw [parseYmd_render y m d _ hy hm1 hm2 hd1 hd31 (by simp [headNotDigit])]
  simp only [parseTime_HM h mi hh hmi]
  simp only [@dtValid_true y m d h mi 0 hy1 hy hm1 hm2 hd1 hdm hh hmi (by omega),
    if_true]

theorem strptimeDateHM_rejects_sec (y m d h mi sec : Nat) (hy : y ≤ 9999)
    (hm1 : 1 ≤ m) (hm2 : m ≤ 12) (hd1 : 1 ≤ d) (hd2 : d ≤ 31)
    (hh : h ≤ 23) (hmi : mi ≤ 59) :
    strptimeDateHM (renderDateTimeSec ' ' y m d h mi sec) = none := by
  have hdata : (renderDateTimeSec ' ' y m d h mi sec).data =
      (renderDate y m d).data ++ ' ' :: ((pad2 h).data ++ ':' ::
        ((pad2 mi).data ++ ':' :: (pad2 sec).data)) := by
    simp [renderDateTimeSec, renderDateTime]
  rw [strptimeDateHM, hdata]
  rw [parseYmd_render y m d _ hy hm1 hm2 hd1 hd2 (by simp [headNotDigit])]
  simp only [parseTime_HM_rejects_sec h mi sec hh hmi]

theorem strptimeDateHMS_render (y m d h mi sec : Nat) (hy1 : 1 ≤ y) (hy : y ≤ 9999)
    (hm1 : 1 ≤ m) (hm2 : m ≤ 12) (hd1 : 1 ≤ d) (hdm : d ≤ daysInMonth y m)
    (hh : h ≤ 23) (hmi : mi ≤ 59) (hsec : sec ≤ 59) :
    strptimeDateHMS (renderDateTimeSec ' ' y m d h mi sec) =
      some (y, m, d, h, mi, sec) := by
  have hd31 : d ≤ 31 := le_trans hdm (daysInMonth_le y m)
  have hdata : (renderDateTimeSec ' ' y m d h mi sec).data =
      (renderDate y m d).data ++ ' ' :: ((pad2 h).data ++ ':' ::
        ((pad2 mi).data ++ ':' :: (pad2 sec).data)) := by
    simp [renderDateTimeSec, renderDateTime]
  rw [strptimeDateHMS, hdata]
  rw [parseYmd_render y m d _ hy hm1 hm2 hd1 hd31 (by simp [headNotDigit])]
  simp only [parseTime_HMS h mi sec hh hmi (by omega)]
  simp only [dtValid_true hy1 hy hm1 hm2 hd1 hdm hh hmi hsec, if_true]

theorem strptimeDateHMS_rejects_HM (y m d h mi : Nat) (hy : y ≤ 9999)
    (hm1 : 1 ≤ m) (hm2 : m ≤ 12) (hd1 : 1 ≤ d) (hd2 : d ≤ 31)
    (hh : h ≤ 23) (hmi : mi ≤ 59) :
    strptimeDateHMS (renderDateTime ' ' y m d h mi) = none := by
  have hdata : (renderDateTime ' ' y m d h mi).data =
      (renderDate y m d).data ++ ' ' :: ((pad2 h).data ++ ':' :: (pad2 mi).data) := rfl
  rw [strptimeDateHMS, hdata]
  rw [parseYmd_render y m d _ hy hm1 hm2 hd1 hd2 (by simp [headNotDigit])]
  simp only [parseTime_HMS_rejects_noSec h mi hh hmi]

theorem strptimeDateHMS_rejects_T (y m d h mi sec : Nat) (hy : y ≤ 9999)
    (hm1 : 1 ≤ m) (hm2 : m ≤ 12) (hd1 : 1 ≤ d) (hd2 : d ≤ 31) :
    strptimeDateHMS (renderDateTimeSec 'T' y m d h mi sec) = none := by
  have hdata : (renderDateTimeSec 'T' y m d h mi sec).data =
      (renderDate y m d).data ++ 'T' :: ((pad2 h).data ++ ':' ::
        ((pad2 mi).data ++ ':' :: (pad2 sec).data)) := by
    simp [renderDateTimeSec, renderDateTime]
  rw [strptimeDateHMS, hdata]
  rw [parseYmd_render y m d _ hy hm1 hm2 hd1 hd2 (by simp [headNotDigit])]
  simp

theorem strptimeDate_rejects_T (y m d h mi sec : Nat) (hy : y ≤ 9999)
    (hm1 : 1 ≤ m) (hm2 : m ≤ 12) (hd1 : 1 ≤ d) (hd2 : d ≤ 31) :
    strptimeDate (renderDateTimeSec 'T' y m d h mi sec) = none := by
  have hdata : (renderDateTimeSec 'T' y m d h mi sec).data =
      (renderDate y m d).data ++ 'T' :: ((pad2 h).data ++ ':' ::
        ((pad2 mi).data ++ ':' :: (pad2 sec).data)) := by
    simp [renderDateTimeSec, renderDateTime]
  rw [strptimeDate, hdata]
  rw [parseYmd_render y m d _ hy hm1 hm2 hd1 hd2 (by simp [headNotDigit])]

theorem strptimeDate_rejects_HM (y m d h mi : Nat) (hy : y ≤ 9999)
    (hm1 : 1 ≤ m) (hm2 : m ≤ 12) (hd1 : 1 ≤ d) (hd2 : d ≤ 31) :
    strptimeDate (renderDateTime ' ' y m d h mi) = none := by
  have hdata : (renderDateTime ' ' y m d h mi).data =
      (renderDate y m d).data ++ ' ' :: ((pad2 h).data ++ ':' :: (pad2 mi).data) := rfl
  rw [strptimeDate, hdata]
  rw [parseYmd_render y m d _ hy hm1 hm2 hd1 hd2 (by simp [headNotDigit])]

theorem map_noT_id {l : List Char} (h : ∀ c ∈ l, c ≠ 'T') :
    l.map (fun c => if c = 'T' then ' ' else c) = l := by
  induction l with
  | nil => rfl
  | cons a t ih =>
    rw [List.map_cons]
    rw [if_neg (h a (by simp))]
    rw [ih (fun c hc => h c (by simp [hc]))]

theorem noT_renderDate (y m d : Nat) : ∀ c ∈ (renderDate y m d).data, c ≠ 'T' := by
  intro c hc
  have hd : (renderDate y m d).data =
      (pad4 y).data ++ '-' :: ((pad2 m).data ++ '-' :: (pad2 d).data) := rfl
  rw [hd] at hc
  simp only [List.mem_append, List.mem_cons] at hc
  rcases hc with hc | hc | hc | hc | hc
  · exact mem_pad4_ne_T y c hc
  · rw [hc]; decide
  · exact mem_pad2_ne_T m c hc
  · rw [hc]; decide
  · exact mem_pad2_ne_T d c hc

theorem noT_timePart (h mi : Nat) :
    ∀ c ∈ (pad2 h).data ++ ':' :: (pad2 mi).data, c ≠ 'T' := by
  intro c hc
  simp only [List.mem_append, List.mem_cons] at hc
  rcases hc with hc | hc | hc
  · exact mem_pad2_ne_T h c hc
  · rw [hc]; decide
  · exact mem_pad2_ne_T mi c hc

theorem noT_renderDateTimeSp (y m d h mi : Nat) :
    ∀ c ∈ (renderDateTime ' ' y m d h mi).data, c ≠ 'T' := by
  intro c hc
  have hd : (renderDateTime ' ' y m d h mi).data =
      (renderDate y m d).data ++ ' ' :: ((pad2 h).data ++ ':' :: (pad2 mi).data) := rfl
  rw [hd] at hc
  simp only [List.mem_append, List.mem_cons] at hc
  rcases hc with hc | hc | hc
  · exact noT_renderDate y m d c hc
  · rw [hc]; decide
  · exact noT_timePart h mi c (by simpa using hc)

theorem noT_renderDateTimeSecSp (y m d h mi sec : Nat) :
    ∀ c ∈ (renderDateTimeSec ' ' y m d h mi sec).data, c ≠ 'T' := by
  intro c hc
  have hd : (renderDateTimeSec ' ' y m d h mi sec).data =
      (renderDateTime ' ' y m d h mi).data ++ ':' :: (pad2 sec).data := rfl
  rw [hd] at hc
  simp only [List.mem_append, List.mem_cons] at hc
  rcases hc with hc | hc | hc
  · exact noT_renderDateTimeSp y m d h mi c hc
  · rw [hc]; decide
  · exact mem_pad2_ne_T sec c hc

theorem pyReplaceT_noT {s : String} (h : ∀ c ∈ s.data, c ≠ 'T') :
    pyReplaceT s = s := by
  cases s with
  | mk l =>
    rw [pyReplaceT]
    simp only
    rw [map_noT_id h]

theorem pyReplaceT_renderT (y m d h mi : Nat) :
    pyReplaceT (renderDateTime 'T' y m d h mi) = renderDateTime ' ' y m d h mi := by
  rw [pyReplaceT]
  have hd : (renderDateTime 'T' y m d h mi).data =
      (renderDate y m d).data ++ 'T' :: ((pad2 h).data ++ ':' :: (pad2 mi).data) := rfl
  rw [hd, List.map_append, List.map_cons]
  rw [map_noT_id (noT_renderDate y m d), map_noT_id (noT_timePart h mi)]
  rfl

theorem length_renderDate (y m d : Nat) : (renderDate y m d).length = 10 := rfl

theorem length_renderDateTime (sep : Char) (y m d h mi : Nat) :
    (renderDateTime sep y m d h mi).length = 16 := rfl

theorem length_renderDateTimeSec (sep : Char) (y m d h mi sec : Nat) :
    (renderDateTimeSec sep y m d h mi sec).length = 19 := rfl

theorem ne_empty_of_length {s : String} (h : s.length ≠ 0) : s ≠ "" :=
  fun he => h (by rw [he]; rfl)

/-- The web normalizer accepts canonical `"YYYY-MM-DD"`. -/
theorem format_web_date (y m d : Nat) (hy1 : 1 ≤ y) (hy : y ≤ 9999)
    (hm1 : 1 ≤ m) (hm2 : m ≤ 12) (hd1 : 1 ≤ d) (hdm : d ≤ daysInMonth y m) :
    format_date_for_pdf_web (some (renderDate y m d)) =
      some ("D:" ++ strftime14 y m d 0 0 0) := by
  rw [format_date_for_pdf_web]
  simp only [@isEmpty_false_of_ne (renderDate y m d) (ne_empty_of_length
    (by rw [length_renderDate]; omega)), Bool.false_eq_true, if_false]
  rw [pyReplaceT_noT (noT_renderDate y m d)]
  rw [length_renderDate]
  simp only [show ¬ (10 > 10) by omega, if_false]
  rw [strptimeDate_render y m d hy1 hy hm1 hm2 hd1 hdm]

/-- The web normalizer accepts canonical `"YYYY-MM-DD HH:MM"`. -/
theorem format_web_HM (y m d h mi : Nat) (hy1 : 1 ≤ y) (hy : y ≤ 9999)
    (hm1 : 1 ≤ m) (hm2 : m ≤ 12) (hd1 : 1 ≤ d) (hdm : d ≤ daysInMonth y m)
    (hh : h ≤ 23) (hmi : mi ≤ 59) :
    format_date_for_pdf_web (some (renderDateTime ' ' y m d h mi)) =
      some ("D:" ++ strftime14 y m d h mi 0) := by
  rw [format_date_for_pdf_web]
  simp only [@isEmpty_false_of_ne (renderDateTime ' ' y m d h mi) (ne_empty_of_length
    (by rw [length_renderDateTime]; omega)), Bool.false_eq_true, if_false]
  rw [pyReplaceT_noT (noT_renderDateTimeSp y m d h mi)]
  rw [length_renderDateTime]
  simp only [show (16 > 10) by omega, if_true]
  rw [strptimeDateHM_render y m d h mi hy1 hy hm1 hm2 hd1 hdm hh hmi]

/-- The web normalizer accepts a `'T'` separator, normalizing it first. -/
theorem format_web_T (y m d h mi : Nat) (hy1 : 1 ≤ y) (hy : y ≤ 9999)
    (hm1 : 1 ≤ m) (hm2 : m ≤ 12) (hd1 : 1 ≤ d) (hdm : d ≤ daysInMonth y m)
    (hh : h ≤ 23) (hmi : mi ≤ 59) :
    format_date_for_pdf_web (some (renderDateTime 'T' y m d h mi)) =
      some ("D:" ++ strftime14 y m d h mi 0) := by
  rw [format_date_for_pdf_web]
  simp only [@isEmpty_false_of_ne (renderDateTime 'T' y m d h mi) (ne_empty_of_length
    (by rw [length_renderDateTime]; omega)), Bool.false_eq_true, if_false]
  rw [pyReplaceT_renderT y m d h mi]
  rw [length_renderDateTime]
  simp only [show (16 > 10) by omega, if_true]
  rw [strptimeDateHM_render y m d h mi hy1 hy hm1 hm2 hd1 hdm hh hmi]

/-- The web normalizer *rejects* `"YYYY-MM-DD HH:MM:SS"`: it parses only
`"%Y-%m-%d %H:%M"` for long inputs, so the trailing `":SS"` fails the
full-match check. -/
theorem format_web_rejects_HMS (y m d h mi sec : Nat) (hy : y ≤ 9999)
    (hm1 : 1 ≤ m) (hm2 : m ≤ 12) (hd1 : 1 ≤ d) (hd2 : d ≤ 31)
    (hh : h ≤ 23) (hmi : mi ≤ 59) :
    format_date_for_pdf_web (some (renderDateTimeSec ' ' y m d h mi sec)) = none := by
  rw [format_date_for_pdf_web]
  simp only [@isEmpty_false_of_ne (renderDateTimeSec ' ' y m d h mi sec)
    (ne_empty_of_length (by rw [length_renderDateTimeSec]; omega)),
    Bool.false_eq_true, if_false]
  rw [pyReplaceT_noT (noT_renderDateTimeSecSp y m d h mi sec)]
  rw [length_renderDateTimeSec]
  simp only [show (19 > 10) by omega, if_true]
  rw [strptimeDateHM_rejects_sec y m d h mi sec hy hm1 hm2 hd1 hd2 hh hmi]

/-- The CLI normalizer accepts canonical `"YYYY-MM-DD"`. -/
theorem format_cli_date (y m d : Nat) (hy1 : 1 ≤ y) (hy : y ≤ 9999)
    (hm1 : 1 ≤ m) (hm2 : m ≤ 12) (hd1 : 1 ≤ d) (hdm : d ≤ daysInMonth y m) :
    format_date_for_pdf_cli (some (renderDate y m d)) =
      some ("D:" ++ strftime14 y m d 0 0 0) := by
  have hd31 : d ≤ 31 := le_trans hdm (daysInMonth_le y m)
  rw [format_date_for_pdf_cli]
  simp only [@isEmpty_false_of_ne (renderDate y m d) (ne_empty_of_length
    (by rw [length_renderDate]; omega)), Bool.false_eq_true, if_false]
  have hnone : strptimeDateHMS (renderDate y m d) = none := by
    have hp := parseYmd_render y m d [] hy hm1 hm2 hd1 hd31 trivial
    rw [List.append_nil] at hp
    rw [strptimeDateHMS, hp]
  rw [hnone, strptimeDate_render y m d hy1 hy hm1 hm2 hd1 hdm]

/-- The CLI normalizer accepts canonical `"YYYY-MM-DD HH:MM:SS"`. -/
theorem format_cli_HMS (y m d h mi sec : Nat) (hy1 : 1 ≤ y) (hy : y ≤ 9999)
    (hm1 : 1 ≤ m) (hm2 : m ≤ 12) (hd1 : 1 ≤ d) (hdm : d ≤ daysInMonth y m)
    (hh : h ≤ 23) (hmi : mi ≤ 59) (hsec : sec ≤ 59) :
    format_date_for_pdf_cli (some (renderDateTimeSec ' ' y m d h mi sec)) =
      some ("D:" ++ strftime14 y m d h mi sec) := by
  rw [format_date_for_pdf_cli]
  simp only [@isEmpty_false_of_ne (renderDateTimeSec ' ' y m d h mi sec)
    (ne_empty_of_length (by rw [length_renderDateTimeSec]; omega)),
    Bool.false_eq_true, if_false]
  rw [strptimeDateHMS_render y m d h mi sec hy1 hy hm1 hm2 hd1 hdm hh hmi hsec]

/-- The CLI normalizer *rejects* `"YYYY-MM-DD HH:MM"` (no seconds). -/
theorem format_cli_rejects_HM (y m d h mi : Nat) (hy : y ≤ 9999)
    (hm1 : 1 ≤ m) (hm2 : m ≤ 12) (hd1 : 1 ≤ d) (hd2 : d ≤ 31)
    (hh : h ≤ 23) (hmi : mi ≤ 59) :
    format_date_for_pdf_cli (some (renderDateTime ' ' y m d h mi)) = none := by
  rw [format_date_for_pdf_cli]
  simp only [@isEmpty_false_of_ne (renderDateTime ' ' y m d h mi)
    (ne_empty_of_length (by rw [length_renderDateTime]; omega)),
    Bool.false_eq_true, if_false]
  rw [strptimeDateHMS_rejects_HM y m d h mi hy hm1 hm2 hd1 hd2 hh hmi]
  rw [strptimeDate_rejects_HM y m d h mi hy hm1 hm2 hd1 hd2]

/-- The CLI normalizer does *not* normalize a `'T'` separator. -/
theorem format_cli_rejects_T (y m d h mi sec : Nat) (hy : y ≤ 9999)
    (hm1 : 1 ≤ m) (hm2 : m ≤ 12) (hd1 : 1 ≤ d) (hd2 : d ≤ 31) :
    format_date_for_pdf_cli (some (renderDateTimeSec 'T' y m d h mi sec)) = none := by
  rw [format_date_for_pdf_cli]
  simp only [@isEmpty_false_of_ne (renderDateTimeSec 'T' y m d h mi sec)
    (ne_empty_of_length (by rw [length_renderDateTimeSec]; omega)),
    Bool.false_eq_true, if_false]
  rw [strptimeDateHMS_rejects_T y m d h mi sec hy hm1 hm2 hd1 hd2]
  rw [strptimeDate_rejects_T y m d h mi sec hy hm1 hm2 hd1 hd2]

/-- C4 counterexample: the claim promises `D:YYYYMMDDHHMMSS` for every
string in `"YYYY-MM-DD HH:MM[:SS]"` form from "the date normalizer", but
the web variant rejects the `HH:MM:SS` form (it parses only `%H:%M` for
long strings), the CLI variant rejects the `HH:MM` form (it parses only
`%H:%M:%S` before falling back to date-only), and the CLI variant does not
normalize the `"T"` separator. -/
theorem claim_C4_counterexample :
    format_date_for_pdf_web (some "2023-01-02 03:04:05") = none
    ∧ format_date_for_pdf_web (some "2023-01-02 03:04:05") ≠ some "D:20230102030405"
    ∧ format_date_for_pdf_cli (some "2023-01-02 03:04") = none
    ∧ format_date_for_pdf_cli (some "2023-01-02T03:04:05") = none := by
  refine ⟨by rfl, ?_, by rfl, by rfl⟩
  intro h
  rw [show format_date_for_pdf_web (some "2023-01-02 03:04:05") = none from rfl] at h
  exact Option.noConfusion h

/-- C4 amended: on canonical zero-padded inputs, the *web* normalizer
accepts `"YYYY-MM-DD"` and `"YYYY-MM-DD HH:MM"` (also with a `"T"`
separator, normalized first) and returns the 14-digit token
`D:YYYYMMDDHHMMSS` with missing components as zero, but yields no value for
`"YYYY-MM-DD HH:MM:SS"`; the *CLI* normalizer accepts `"YYYY-MM-DD"` and
`"YYYY-MM-DD HH:MM:SS"` but yields no value for `"YYYY-MM-DD HH:MM"` and
does not accept the `"T"` separator; both return no value (never an error)
for absent or empty input. -/
theorem claim_C4_amended :
    ∀ y m d h mi sec : Nat,
      1 ≤ y → y ≤ 9999 → 1 ≤ m → m ≤ 12 → 1 ≤ d → d ≤ daysInMonth y m →
      h ≤ 23 → mi ≤ 59 → sec ≤ 59 →
      format_date_for_pdf_web (some (renderDate y m d)) =
        some ("D:" ++ strftime14 y m d 0 0 0)
      ∧ format_date_for_pdf_cli (some (renderDate y m d)) =
        some ("D:" ++ strftime14 y m d 0 0 0)
      ∧ format_date_for_pdf_web (some (renderDateTime ' ' y m d h mi)) =
        some ("D:" ++ strftime14 y m d h mi 0)
      ∧ format_date_for_pdf_web (some (renderDateTime 'T' y m d h mi)) =
        some ("D:" ++ strftime14 y m d h mi 0)
      ∧ format_date_for_pdf_cli (some (renderDateTimeSec ' ' y m d h mi sec)) =
        some ("D:" ++ strftime14 y m d h mi sec)
      ∧ format_date_for_pdf_web (some (renderDateTimeSec ' ' y m d h mi sec)) = none
      ∧ format_date_for_pdf_cli (some (renderDateTime ' ' y m d h mi)) = none
      ∧ format_date_for_pdf_cli (some (renderDateTimeSec 'T' y m d h mi sec)) = none
      ∧ format_date_for_pdf_web none = none
      ∧ format_date_for_pdf_cli none = none
      ∧ format_date_for_pdf_web (some "") = none
      ∧ format_date_for_pdf_cli (some "") = none := by
  intro y m d h mi sec hy1 hy hm1 hm2 hd1 hdm hh hmi hsec
  have hd31 : d ≤ 31 := le_trans hdm (daysInMonth_le y m)
  exact ⟨format_web_date y m d hy1 hy hm1 hm2 hd1 hdm,
    format_cli_date y m d hy1 hy hm1 hm2 hd1 hdm,
    format_web_HM y m d h mi hy1 hy hm1 hm2 hd1 hdm hh hmi,
    format_web_T y m d h mi hy1 hy hm1 hm2 hd1 hdm hh hmi,
    format_cli_HMS y m d h mi sec hy1 hy hm1 hm2 hd1 hdm hh hmi hsec,
    format_web_rejects_HMS y m d h mi sec hy hm1 hm2 hd1 hd31 hh hmi,
    format_cli_rejects_HM y m d h mi hy hm1 hm2 hd1 hd31 hh hmi,
    format_cli_rejects_T y m d h mi sec hy hm1 hm2 hd1 hd31,
    rfl, rfl, rfl, rfl⟩

/-- Witness for C4 amended at 2023-01-02 03:04:05. -/
theorem claim_C4_amended_witness :
    format_date_for_pdf_web (some (renderDate 2023 1 2)) =
      some ("D:" ++ strftime14 2023 1 2 0 0 0)
    ∧ format_date_for_pdf_cli (some (renderDate 2023 1 2)) =
      some ("D:" ++ strftime14 2023 1 2 0 0 0)
    ∧ format_date_for_pdf_web (some (renderDateTime ' ' 2023 1 2 3 4)) =
      some ("D:" ++ strftime14 2023 1 2 3 4 0)
    ∧ format_date_for_pdf_web (some (renderDateTime 'T' 2023 1 2 3 4)) =
      some ("D:" ++ strftime14 2023 1 2 3 4 0)
    ∧ format_date_for_pdf_cli (some (renderDateTimeSec ' ' 2023 1 2 3 4 5)) =
      some ("D:" ++ strftime14 2023 1 2 3 4 5)
    ∧ format_date_for_pdf_web (some (renderDateTimeSec ' ' 2023 1 2 3 4 5)) = none
    ∧ format_date_for_pdf_cli (some (renderDateTime ' ' 2023 1 2 3 4)) = none
    ∧ format_date_for_pdf_cli (some (renderDateTimeSec 'T' 2023 1 2 3 4 5)) = none
    ∧ format_date_for_pdf_web none = none
    ∧ format_date_for_pdf_cli none = none
    ∧ format_date_for_pdf_web (some "") = none
    ∧ format_date_for_pdf_cli (some "") = none :=
  claim_C4_amended 2023 1 2 3 4 5 (by decide) (by decide) (by decide) (by decide)
    (by decide) (by decide) (by decide) (by decide) (by decide)

end Toolbox
